import Mathlib

/-!
Verification of the multi-step Figma-to-code workflow controller
(`src/contexts/FigmaStepsContext.tsx`).

The development shallowly embeds the reducer, the four stage actions
(`connectToFigma`, `generateSvgCode`, `saveCssCode`, `generateFinalCode`)
and the two artifact-combiner helpers (`combineCodePieces`,
`combineCssCode`).  JS strings are modelled as `String` (with `List Char`
used internally), JS dynamic values as `JsValue`, and asynchronous stage
executions as the list of reducer actions they dispatch, parameterised by
the outcomes of the external collaborator calls.
-/

set_option maxHeartbeats 1000000
set_option maxRecDepth 8000

namespace FigmaSteps

/-! ### JS string primitives -/

/-- The character class matched by `\s` in JavaScript regular expressions,
also the class removed by `String.prototype.trim`. -/
def jsWs (c : Char) : Bool :=
  c = ' ' || c = '\t' || c = '\n' || c = '\r' || c = '\x0b' || c = '\x0c' ||
  c = '\u00a0' || c = '\u1680' || ('\u2000' ≤ c && c ≤ '\u200a') ||
  c = '\u2028' || c = '\u2029' || c = '\u202f' || c = '\u205f' ||
  c = '\u3000' || c = '\ufeff'

/-- Remove leading and trailing JS whitespace from a character list. -/
def trimChars (l : List Char) : List Char :=
  ((l.dropWhile jsWs).reverse.dropWhile jsWs).reverse

/-- JS `String.prototype.trim`. -/
def jsTrim (s : String) : String :=
  String.mk (trimChars s.data)

/-- `pat` is a prefix of `s` (decision procedure used by the matcher). -/
def prefixB : List Char → List Char → Bool
  | [], _ => true
  | _ :: _, [] => false
  | c :: cs, d :: ds => c = d && prefixB cs ds

/-- `pat` occurs as a contiguous substring of `s`. -/
def infixB (pat : List Char) : List Char → Bool
  | [] => pat.isEmpty
  | c :: rest => prefixB pat (c :: rest) || infixB pat rest

/-- JS `String.prototype.includes`. -/
def jsIncludes (s pat : String) : Bool :=
  infixB pat.data s.data

/-- Split `s` at the first occurrence of `pat`: returns the part before and
the part after that occurrence (`none` when `pat` does not occur). -/
def splitFirst (pat : List Char) : List Char → Option (List Char × List Char)
  | [] => if pat.isEmpty then some ([], []) else none
  | c :: rest =>
    if prefixB pat (c :: rest) then some ([], (c :: rest).drop pat.length)
    else match splitFirst pat rest with
      | some (b, a) => some (c :: b, a)
      | none => none

/-- ECMAScript `GetSubstitution` for a string search pattern (no capture
groups): in the replacement text, `$$` inserts `$`, `$&` the matched text,
a dollar before a backquote the part before the match, a dollar before a
quote the part after the match; every other `$` is literal. -/
def getSubstitution (matched before after : List Char) : List Char → List Char
  | [] => []
  | [c] => [c]
  | c :: d :: rest =>
    if c = '$' then
      if d = '$' then '$' :: getSubstitution matched before after rest
      else if d = '&' then matched ++ getSubstitution matched before after rest
      else if d = '\x60' then before ++ getSubstitution matched before after rest
      else if d = '\x27' then after ++ getSubstitution matched before after rest
      else '$' :: getSubstitution matched before after (d :: rest)
    else c :: getSubstitution matched before after (d :: rest)

/-- JS `String.prototype.replace` with a string pattern: substitute the
first occurrence, applying `GetSubstitution` to the replacement text. -/
def replaceFirstSub (s pat rep : List Char) : List Char :=
  match splitFirst pat s with
  | none => s
  | some (before, after) => before ++ getSubstitution pat before after rep ++ after

/-- JS `a || b` specialised to an optional string on the left
(`undefined` and the empty string are falsy). -/
def jsOrString : Option String → String → String
  | some s, d => if s = "" then d else s
  | none, d => d

/-! ### JS dynamic values -/

/-- An untyped JavaScript value, used for the `figmaData : any` field and
the payloads returned by the Figma API collaborators. -/
inductive JsValue where
  | null
  | undefined
  | bool (b : Bool)
  | num (n : Int)
  | str (s : String)
  | arr (elems : List JsValue)
  | obj (fields : List (String × JsValue))

/-- JS truthiness. -/
def JsValue.truthy : JsValue → Bool
  | .null => false
  | .undefined => false
  | .bool b => b
  | .num n => n ≠ 0
  | .str s => s ≠ ""
  | .arr _ => true
  | .obj _ => true

/-- Property access `v.k` (on non-objects it yields `undefined`; the code
only performs it under truthiness guards, so `null`/`undefined` receivers
are unreachable). -/
def JsValue.get (v : JsValue) (k : String) : JsValue :=
  match v with
  | .obj fields =>
    match fields.find? (fun f => f.1 = k) with
    | some f => f.2
    | none => .undefined
  | _ => .undefined

/-- Optional chaining `v?.k`. -/
def JsValue.optGet (v : JsValue) (k : String) : JsValue :=
  match v with
  | .null => .undefined
  | .undefined => .undefined
  | _ => v.get k

/-- JS `a || b` on dynamic values. -/
def JsValue.jsOr (a b : JsValue) : JsValue :=
  if a.truthy then a else b

mutual

/-- JS `String(v)` string coercion (template-literal interpolation). -/
def JsValue.jsToString : JsValue → String
  | .null => "null"
  | .undefined => "undefined"
  | .bool true => "true"
  | .bool false => "false"
  | .num n => toString n
  | .str s => s
  | .arr xs => jsArrJoin xs
  | .obj _ => "[object Object]"

/-- Array-to-string: elements joined by commas, with `null` and
`undefined` elements rendered empty. -/
def jsArrJoin : List JsValue → String
  | [] => ""
  | [x] => jsElemStr x
  | x :: y :: xs => jsElemStr x ++ "," ++ jsArrJoin (y :: xs)

/-- One array element rendered for `join`. -/
def jsElemStr : JsValue → String
  | .null => ""
  | .undefined => ""
  | .bool true => "true"
  | .bool false => "false"
  | .num n => toString n
  | .str s => s
  | .arr xs => jsArrJoin xs
  | .obj _ => "[object Object]"

end

/-! ### The `return ( ... );` matcher

The source locates the top-level return expression with the regular
expression `return\s*\(\s*([\s\S]*?)\s*\);` and `String.prototype.match`
(first match, leftmost position, lazy group). -/

/-- Try to match `\s*\);` at the head of `l`; on success return the
consumed text and the remainder. -/
def closeParen (l : List Char) : Option (List Char × List Char) :=
  match l.dropWhile jsWs with
  | ')' :: ';' :: rest => some (l.takeWhile jsWs ++ [')', ';'], rest)
  | _ => none

/-- The lazy group `([\s\S]*?)` followed by `\s*\);`: the group takes the
fewest characters after which `\s*\);` matches.  Returns the group, the
consumed closing text, and the remainder. -/
def lazyGroup : List Char → Option (List Char × List Char × List Char)
  | [] =>
    match closeParen [] with
    | some (consumed, rest) => some ([], consumed, rest)
    | none => none
  | c :: cs =>
    match closeParen (c :: cs) with
    | some (consumed, rest) => some ([], consumed, rest)
    | none =>
      match lazyGroup cs with
      | some (g, consumed, rest) => some (c :: g, consumed, rest)
      | none => none

/-- A successful match: the full matched text (`returnMatch[0]`) and the
captured group (`returnMatch[1]`). -/
structure ReturnMatch where
  matched : List Char
  group : List Char
  deriving DecidableEq, Repr

/-- Match the pattern anchored at the head of `l`. -/
def matchReturnAt (l : List Char) : Option ReturnMatch :=
  if prefixB "return".data l then
    let afterReturn := l.drop 6
    let ws1 := afterReturn.takeWhile jsWs
    match afterReturn.dropWhile jsWs with
    | '(' :: afterParen =>
      let ws2 := afterParen.takeWhile jsWs
      match lazyGroup (afterParen.dropWhile jsWs) with
      | some (g, consumed, _) =>
        some ⟨"return".data ++ ws1 ++ '(' :: (ws2 ++ g ++ consumed), g⟩
      | none => none
    | _ => none
  else none

/-- First match of `return\s*\(\s*([\s\S]*?)\s*\);` in `l` (leftmost
starting position), as produced by `finalCode.match(...)`. -/
def jsReturnMatch : List Char → Option ReturnMatch
  | [] => matchReturnAt []
  | c :: rest =>
    match matchReturnAt (c :: rest) with
    | some m => some m
    | none => jsReturnMatch rest

/-! ### Artifact combiner (`combineCodePieces`, `combineCssCode`) -/

/-- The Figma metadata comment block prepended to the final TSX when
`figmaData` is truthy (`now` stands for `new Date().toISOString()`). -/
def figmaMetadataComment (figmaData : JsValue) (now : String) : String :=
  "/*\n * Generated from Figma Design\n * File: " ++
  ((figmaData.get "file").optGet "name" |>.jsOr (.str "Unknown")).jsToString ++
  "\n * Generated: " ++ now ++
  "\n * Components: " ++
  ((figmaData.get "metadata").optGet "componentCount" |>.jsOr (.num 0)).jsToString ++
  "\n * Styles: " ++
  ((figmaData.get "metadata").optGet "styleCount" |>.jsOr (.num 0)).jsToString ++
  "\n */\n\n"

/-- Helper `combineCodePieces(generatedTsx, manualJsx, figmaData)`; `now`
stands for `new Date().toISOString()`. -/
def combineCodePieces (generatedTsx manualJsx : String) (figmaData : JsValue)
    (now : String) : String :=
  let finalCode := generatedTsx
  let finalCode :=
    if jsTrim manualJsx ≠ "" then
      match jsReturnMatch finalCode.data with
      | some m =>
        let originalJsx := trimChars m.group
        if prefixB "<svg".data originalJsx then
          let mergedJsx :=
            "\n    <React.Fragment>\n      ".data ++ originalJsx ++
            "\n      \x7b/* Additional JSX */\x7d\n      ".data ++ manualJsx.data ++
            "\n    </React.Fragment>".data
          String.mk (replaceFirstSub finalCode.data m.matched
            ("return (".data ++ mergedJsx ++ "\n  );".data))
        else
          let mergedJsx :=
            originalJsx ++ "\n      \x7b/* Additional JSX */\x7d\n      ".data ++
            manualJsx.data
          String.mk (replaceFirstSub finalCode.data m.matched
            ("return (\n    ".data ++ mergedJsx ++ "\n  );".data))
      | none => finalCode
    else finalCode
  if figmaData.truthy then figmaMetadataComment figmaData now ++ finalCode
  else finalCode

/-- The header comment of the combined CSS when `figmaData` is truthy. -/
def cssHeaderComment (figmaData : JsValue) (now : String) : String :=
  "/*\n * Styles for Figma Component: " ++
  ((figmaData.get "file").optGet "name" |>.jsOr (.str "Unknown")).jsToString ++
  "\n * Generated: " ++ now ++
  "\n */\n\n"

/-- The fixed responsive-utilities section always appended by
`combineCssCode`. -/
def responsiveUtilities : String :=
  "/* Responsive Utilities */\n@media (max-width: 768px) \x7b\n  .figma-component \x7b\n    padding: 1rem;\n  \x7d\n\x7d\n\n@media (max-width: 480px) \x7b\n  .figma-component \x7b\n    padding: 0.5rem;\n  \x7d\n\x7d"

/-- Helper `combineCssCode(baseCss, additionalCss, figmaData)`; `now`
stands for `new Date().toISOString()`. -/
def combineCssCode (baseCss additionalCss : String) (figmaData : JsValue)
    (now : String) : String :=
  let finalCss := ""
  let finalCss :=
    if figmaData.truthy then finalCss ++ cssHeaderComment figmaData now
    else finalCss
  let finalCss :=
    if jsTrim baseCss ≠ "" then
      finalCss ++ "/* Base Styles */\n" ++ baseCss ++ "\n\n"
    else finalCss
  let finalCss :=
    if jsTrim additionalCss ≠ "" then
      finalCss ++ "/* Additional Styles */\n" ++ additionalCss ++ "\n\n"
    else finalCss
  finalCss ++ responsiveUtilities

/-! ### Pipeline state store -/

/-- Per-stage status. -/
inductive Status where
  | idle
  | loading
  | success
  | error
  deriving DecidableEq, Repr

/-- `StepData`. -/
structure StepData where
  figmaUrl : String
  accessToken : String
  figmaData : JsValue
  svgCode : String
  generatedTsxCode : String
  cssCode : String
  jsxCode : String
  moreCssCode : String
  finalTsxCode : String
  finalCssCode : String

/-- `StepStatus`. -/
structure StepStatus where
  step1 : Status
  step2 : Status
  step3 : Status
  step4 : Status
  deriving DecidableEq, Repr

/-- The keys of `UIState.expandedBlocks`. -/
inductive BlockKey where
  | block1
  | block2
  | block3
  | block4
  deriving DecidableEq, Repr

/-- `UIState.expandedBlocks`. -/
structure ExpandedBlocks where
  block1 : Bool
  block2 : Bool
  block3 : Bool
  block4 : Bool
  deriving DecidableEq, Repr

/-- `UIState.progress`. -/
structure Progress where
  current : Nat
  total : Nat
  message : String
  deriving DecidableEq, Repr

/-- `UIState`; the `errors` record is modelled extensionally as a map from
step keys to optional messages. -/
structure UIState where
  expandedBlocks : ExpandedBlocks
  previewMode : Bool
  errors : String → Option String
  progress : Progress

/-- `FigmaStepsState`. -/
structure FigmaStepsState where
  stepData : StepData
  stepStatus : StepStatus
  uiState : UIState

/-- `Partial<StepData>` payloads: absent fields are `none`. -/
structure PartialStepData where
  figmaUrl : Option String := none
  accessToken : Option String := none
  figmaData : Option JsValue := none
  svgCode : Option String := none
  generatedTsxCode : Option String := none
  cssCode : Option String := none
  jsxCode : Option String := none
  moreCssCode : Option String := none
  finalTsxCode : Option String := none
  finalCssCode : Option String := none

/-- `Partial<StepStatus>` payloads. -/
structure PartialStepStatus where
  step1 : Option Status := none
  step2 : Option Status := none
  step3 : Option Status := none
  step4 : Option Status := none

/-- `Partial<UIState>` payloads (shallow: whole branches replaced). -/
structure PartialUIState where
  expandedBlocks : Option ExpandedBlocks := none
  previewMode : Option Bool := none
  errors : Option (String → Option String) := none
  progress : Option Progress := none

/-- `Partial<UIState['progress']>` payloads. -/
structure PartialProgress where
  current : Option Nat := none
  total : Option Nat := none
  message : Option String := none

/-- The reducer's action type. -/
inductive FigmaStepsAction where
  | SET_STEP_DATA (payload : PartialStepData)
  | SET_STEP_STATUS (payload : PartialStepStatus)
  | SET_UI_STATE (payload : PartialUIState)
  | SET_ERROR (step : String) (error : String)
  | CLEAR_ERRORS
  | TOGGLE_BLOCK (payload : BlockKey)
  | SET_PROGRESS (payload : PartialProgress)
  | RESET_ALL

/-- `{ ...state.stepData, ...action.payload }`. -/
def mergeStepData (s : StepData) (p : PartialStepData) : StepData where
  figmaUrl := p.figmaUrl.getD s.figmaUrl
  accessToken := p.accessToken.getD s.accessToken
  figmaData := p.figmaData.getD s.figmaData
  svgCode := p.svgCode.getD s.svgCode
  generatedTsxCode := p.generatedTsxCode.getD s.generatedTsxCode
  cssCode := p.cssCode.getD s.cssCode
  jsxCode := p.jsxCode.getD s.jsxCode
  moreCssCode := p.moreCssCode.getD s.moreCssCode
  finalTsxCode := p.finalTsxCode.getD s.finalTsxCode
  finalCssCode := p.finalCssCode.getD s.finalCssCode

/-- `{ ...state.stepStatus, ...action.payload }`. -/
def mergeStepStatus (s : StepStatus) (p : PartialStepStatus) : StepStatus where
  step1 := p.step1.getD s.step1
  step2 := p.step2.getD s.step2
  step3 := p.step3.getD s.step3
  step4 := p.step4.getD s.step4

/-- `{ ...state.uiState, ...action.payload }`. -/
def mergeUIState (s : UIState) (p : PartialUIState) : UIState where
  expandedBlocks := p.expandedBlocks.getD s.expandedBlocks
  previewMode := p.previewMode.getD s.previewMode
  errors := p.errors.getD s.errors
  progress := p.progress.getD s.progress

/-- `{ ...state.uiState.progress, ...action.payload }`. -/
def mergeProgress (s : Progress) (p : PartialProgress) : Progress where
  current := p.current.getD s.current
  total := p.total.getD s.total
  message := p.message.getD s.message

/-- Read one expansion flag. -/
def ExpandedBlocks.get (b : ExpandedBlocks) : BlockKey → Bool
  | .block1 => b.block1
  | .block2 => b.block2
  | .block3 => b.block3
  | .block4 => b.block4

/-- Toggle one expansion flag. -/
def ExpandedBlocks.toggle (b : ExpandedBlocks) : BlockKey → ExpandedBlocks
  | .block1 => { b with block1 := !b.block1 }
  | .block2 => { b with block2 := !b.block2 }
  | .block3 => { b with block3 := !b.block3 }
  | .block4 => { b with block4 := !b.block4 }

/-- `initialState`. -/
def initialState : FigmaStepsState where
  stepData :=
    { figmaUrl := "https://www.figma.com/design/..."
      accessToken := ""
      figmaData := .null
      svgCode := ""
      generatedTsxCode := ""
      cssCode := ""
      jsxCode := ""
      moreCssCode := ""
      finalTsxCode := ""
      finalCssCode := "" }
  stepStatus := { step1 := .idle, step2 := .idle, step3 := .idle, step4 := .idle }
  uiState :=
    { expandedBlocks :=
        { block1 := false, block2 := false, block3 := false, block4 := false }
      previewMode := false
      errors := fun _ => none
      progress := { current := 0, total := 4, message := "" } }

/-- `figmaStepsReducer`. -/
def figmaStepsReducer (state : FigmaStepsState) :
    FigmaStepsAction → FigmaStepsState
  | .SET_STEP_DATA payload =>
    { state with stepData := mergeStepData state.stepData payload }
  | .SET_STEP_STATUS payload =>
    { state with stepStatus := mergeStepStatus state.stepStatus payload }
  | .SET_UI_STATE payload =>
    { state with uiState := mergeUIState state.uiState payload }
  | .SET_ERROR step error =>
    { state with uiState :=
        { state.uiState with errors :=
            fun k => if k = step then some error else state.uiState.errors k } }
  | .CLEAR_ERRORS =>
    { state with uiState := { state.uiState with errors := fun _ => none } }
  | .TOGGLE_BLOCK payload =>
    { state with uiState :=
        { state.uiState with expandedBlocks :=
            state.uiState.expandedBlocks.toggle payload } }
  | .SET_PROGRESS payload =>
    { state with uiState :=
        { state.uiState with
            progress := mergeProgress state.uiState.progress payload } }
  | .RESET_ALL => initialState

/-! ### Stage orchestrator

Each stage action is embedded as the list of events it produces when run
to completion: reducer dispatches, interleaved with markers for the
automatic invocation of other stage actions.  Collaborator outcomes are
supplied by environment records; a rejected promise / thrown value is a
`JsError`. -/

/-- A thrown JS value: either an `Error` with a message, or any other
value (the `instanceof Error` checks distinguish the two). -/
inductive JsError where
  | mk (message : String)
  | nonError (value : JsValue)

/-- Outcome of an awaited collaborator call. -/
inductive JsResult (α : Type) where
  | ok (value : α)
  | thrown (e : JsError)

/-- Result shape of `figmaApiService.validateFigmaUrl`. -/
structure FigmaValidation where
  valid : Bool
  fileId : Option String
  error : Option String

/-- Collaborator outcomes for one stage-2 run. -/
structure Stage2Env where
  extractSVGFromFigma : JsResult String
  transformer : JsResult String

/-- Collaborator outcomes for one `connectToFigma` run (`now` stands for
`new Date().toISOString()` used for `extractedAt`). -/
structure ConnectEnv where
  validateFigmaUrl : JsResult FigmaValidation
  fetchFigmaFile : JsResult JsValue
  getFileMetadata : JsResult JsValue
  getFileComponents : JsResult JsValue
  getFileStyles : JsResult JsValue
  now : String
  stage2 : Stage2Env

/-- Collaborator outcomes for one `generateFinalCode` run, including the
progress messages reported through the `onProgress` callback and the two
timestamps drawn inside the combiner helpers. -/
structure Stage4Env where
  generateCode : JsResult String
  progressUpdates : List String
  nowTsx : String
  nowCss : String

/-- `error instanceof Error ? error.message : fallback`. -/
def errMessageOr (e : JsError) (fallback : String) : String :=
  match e with
  | .mk m => m
  | .nonError _ => fallback

/-- Events produced by a stage execution. -/
inductive Event where
  | dispatch (a : FigmaStepsAction)
  | invokeAutoGenerateSvg (figmaData : JsValue) (fileId : String)
  | invokeGenerateSvgCode (svgContent : Option String)
  | invokeSaveCssCode
  | invokeGenerateFinalCode

/-- The user-facing stage-1 message for access-denied errors. -/
def accessDeniedMessage : String :=
  "Access denied. This Figma file requires authentication. Please provide a valid Figma Personal Access Token. You can generate one from your Figma account settings under \"Personal access tokens\"."

/-- The user-facing stage-1 message for not-found errors. -/
def notFoundMessage : String :=
  "Figma file not found. Please check if the file exists and the URL is correct."

/-- The user-facing stage-1 message for invalid-credential errors. -/
def invalidTokenMessage : String :=
  "Invalid or expired access token. Please check your Figma Personal Access Token and try again."

/-- The user-facing stage-1 message for rate-limit errors. -/
def rateLimitMessage : String :=
  "Rate limit exceeded. Please wait a moment and try again."

/-- Stage-1 error classification (the body of `connectToFigma`'s catch). -/
def classifyConnectError : JsError → String
  | .nonError _ => "Connection failed"
  | .mk msg =>
    if jsIncludes msg "Access denied" || jsIncludes msg "403" then
      accessDeniedMessage
    else if jsIncludes msg "404" then notFoundMessage
    else if jsIncludes msg "401" then invalidTokenMessage
    else if jsIncludes msg "429" then rateLimitMessage
    else msg

/-- The dispatches of `connectToFigma`'s catch block. -/
def connectCatchEvents (e : JsError) : List Event :=
  [.dispatch (.SET_ERROR "step1" (classifyConnectError e)),
   .dispatch (.SET_STEP_STATUS { step1 := some .error }),
   .dispatch (.SET_PROGRESS { message := some "Connection failed" })]

/-- Stage-2 error classification (the body of `generateSvgCode`'s catch). -/
def classifySvgError : JsError → String
  | .nonError _ => "SVG conversion failed"
  | .mk msg =>
    if jsIncludes msg "Invalid SVG" then
      msg ++ ". Please ensure your input contains valid SVG elements like <svg>, <path>, <rect>, etc."
    else if jsIncludes msg "parsing" then
      "SVG parsing failed. Please check your SVG syntax and try again."
    else msg

/-- The dispatches of `generateSvgCode`'s catch block. -/
def svgCatchEvents (e : JsError) : List Event :=
  [.dispatch (.SET_ERROR "step2" (classifySvgError e)),
   .dispatch (.SET_STEP_STATUS { step2 := some .error }),
   .dispatch (.SET_PROGRESS { message := some "SVG conversion failed" })]

/-- `generateSvgCode(svgContent?)`: `snap` is the `state.stepData`
snapshot captured by the callback. -/
def generateSvgCodeEvents (svgContent : Option String) (snap : StepData)
    (env : Stage2Env) : List Event :=
  let svg := jsOrString svgContent snap.svgCode
  if jsTrim svg = "" then
    [.dispatch (.SET_ERROR "step2" "Please provide SVG code")]
  else
    [.dispatch (.SET_STEP_STATUS { step2 := some .loading }),
     .dispatch .CLEAR_ERRORS,
     .dispatch (.SET_PROGRESS
       { current := some 2, message := some "Converting SVG to TSX..." })] ++
    if jsIncludes svg "<svg" = false ∧ jsIncludes svg "<path" = false ∧
        jsIncludes svg "<rect" = false ∧ jsIncludes svg "<circle" = false then
      svgCatchEvents
        (.mk "Invalid SVG: No SVG elements found in the provided code")
    else
      [.dispatch (.SET_PROGRESS { message := some "Parsing SVG structure..." })] ++
      match env.transformer with
      | .ok tsxCode =>
        [.dispatch (.SET_STEP_DATA
           { svgCode := some svg, generatedTsxCode := some tsxCode }),
         .dispatch (.SET_STEP_STATUS { step2 := some .success }),
         .dispatch (.SET_PROGRESS
           { message := some "TSX code generated successfully!" })]
      | .thrown e => svgCatchEvents e

/-- `autoGenerateSvg(figmaData, fileId)`; the `figmaData`/`fileId`
arguments only feed the collaborator call whose outcome `env` already
fixes. -/
def autoGenerateSvgEvents (_figmaData : JsValue) (_fileId : String)
    (snap : StepData) (env : Stage2Env) : List Event :=
  [.dispatch (.SET_STEP_STATUS { step2 := some .loading }),
   .dispatch (.SET_PROGRESS
     { current := some 2, message := some "Extracting SVG from Figma..." })] ++
  match env.extractSVGFromFigma with
  | .ok svgContent =>
    [.dispatch (.SET_STEP_DATA { svgCode := some svgContent }),
     .dispatch (.SET_PROGRESS { message := some "Converting SVG to TSX..." }),
     .invokeGenerateSvgCode (some svgContent)] ++
    generateSvgCodeEvents (some svgContent) snap env
  | .thrown e =>
    [.dispatch (.SET_ERROR "step2" (errMessageOr e "SVG generation failed")),
     .dispatch (.SET_STEP_STATUS { step2 := some .error }),
     .dispatch (.SET_PROGRESS { message := some "SVG generation failed" })]

/-- The composite document bundle assembled on the stage-1 success path
(`completeData`). -/
def connectCompleteData (figmaFile metadata components styles : JsValue)
    (fileId : String) (now : String) : JsValue :=
  .obj [("file", figmaFile), ("metadata", metadata),
        ("components", components), ("styles", styles),
        ("fileId", .str fileId), ("extractedAt", .str now)]

/-- `connectToFigma()`: `snap` is the `state.stepData` snapshot. -/
def connectToFigmaEvents (snap : StepData) (env : ConnectEnv) : List Event :=
  if jsTrim snap.figmaUrl = "" ∨ jsTrim snap.accessToken = "" then
    [.dispatch (.SET_ERROR "step1"
      "Please provide both Figma URL and Access Token")]
  else
    [.dispatch (.SET_STEP_STATUS { step1 := some .loading }),
     .dispatch .CLEAR_ERRORS,
     .dispatch (.SET_PROGRESS
       { current := some 1, message := some "Connecting to Figma..." })] ++
    match env.validateFigmaUrl with
    | .thrown e => connectCatchEvents e
    | .ok validation =>
      if validation.valid = false ∨ validation.fileId.getD "" = "" then
        connectCatchEvents (.mk (jsOrString validation.error "Invalid Figma URL"))
      else
        let fileId := validation.fileId.getD ""
        [.dispatch (.SET_PROGRESS { message := some "Fetching Figma file data..." })] ++
        match env.fetchFigmaFile with
        | .thrown e => connectCatchEvents e
        | .ok figmaFile =>
          [.dispatch (.SET_PROGRESS { message := some "Getting metadata..." })] ++
          match env.getFileMetadata with
          | .thrown e => connectCatchEvents e
          | .ok metadata =>
            match env.getFileComponents with
            | .thrown e => connectCatchEvents e
            | .ok components =>
              match env.getFileStyles with
              | .thrown e => connectCatchEvents e
              | .ok styles =>
                let completeData := connectCompleteData figmaFile metadata
                  components styles fileId env.now
                [.dispatch (.SET_STEP_DATA { figmaData := some completeData }),
                 .dispatch (.SET_STEP_STATUS { step1 := some .success }),
                 .dispatch (.SET_PROGRESS { message := some "Connection successful!" }),
                 .invokeAutoGenerateSvg completeData fileId] ++
                autoGenerateSvgEvents completeData fileId snap env.stage2

/-- `saveCssCode()`. -/
def saveCssCodeEvents (snap : StepData) : List Event :=
  if jsTrim snap.cssCode = "" then
    [.dispatch (.SET_ERROR "step3" "Please provide CSS code")]
  else
    [.dispatch (.SET_STEP_STATUS { step3 := some .success }),
     .dispatch .CLEAR_ERRORS,
     .dispatch (.SET_PROGRESS
       { current := some 3, message := some "CSS code saved successfully!" })]

/-- `generateFinalCode()`. -/
def generateFinalCodeEvents (snap : StepData) (env : Stage4Env) : List Event :=
  if jsTrim snap.jsxCode = "" ∧ jsTrim snap.moreCssCode = "" then
    [.dispatch (.SET_ERROR "step4" "Please provide JSX or additional CSS code")]
  else
    [.dispatch (.SET_STEP_STATUS { step4 := some .loading }),
     .dispatch .CLEAR_ERRORS,
     .dispatch (.SET_PROGRESS
       { current := some 4, message := some "Generating final code..." }),
     .dispatch (.SET_PROGRESS { message := some "Optimizing code..." })] ++
    (env.progressUpdates.map fun m =>
      Event.dispatch (.SET_PROGRESS { message := some m })) ++
    match env.generateCode with
    | .ok _ =>
      [.dispatch (.SET_PROGRESS { message := some "Combining code pieces..." }),
       .dispatch (.SET_STEP_DATA
         { finalTsxCode := some (combineCodePieces snap.generatedTsxCode
             snap.jsxCode snap.figmaData env.nowTsx)
           finalCssCode := some (combineCssCode snap.cssCode
             snap.moreCssCode snap.figmaData env.nowCss) }),
       .dispatch (.SET_STEP_STATUS { step4 := some .success }),
       .dispatch (.SET_PROGRESS
         { message := some "Final code generated successfully!" })]
    | .thrown e =>
      [.dispatch (.SET_ERROR "step4" (errMessageOr e "Generation failed")),
       .dispatch (.SET_STEP_STATUS { step4 := some .error }),
       .dispatch (.SET_PROGRESS { message := some "Generation failed" })]

/-- One explicit user invocation of a stage action, with its collaborator
outcomes. -/
inductive StageInvocation where
  | connect (env : ConnectEnv)
  | generateSvg (svgContent : Option String) (env : Stage2Env)
  | saveCss
  | generateFinal (env : Stage4Env)

/-- The events of one stage invocation against snapshot `snap`. -/
def stageEvents (snap : StepData) : StageInvocation → List Event
  | .connect env => connectToFigmaEvents snap env
  | .generateSvg svgContent env => generateSvgCodeEvents svgContent snap env
  | .saveCss => saveCssCodeEvents snap
  | .generateFinal env => generateFinalCodeEvents snap env

/-- The reducer action of a dispatch event. -/
def Event.dispatchedAction : Event → Option FigmaStepsAction
  | .dispatch a => some a
  | _ => none

/-- The reducer actions dispatched by an event list, in order. -/
def dispatchesOf (evs : List Event) : List FigmaStepsAction :=
  evs.filterMap Event.dispatchedAction

/-- Fold a list of dispatched actions through the reducer. -/
def applyActions (s : FigmaStepsState) (acts : List FigmaStepsAction) :
    FigmaStepsState :=
  acts.foldl figmaStepsReducer s

/-- Run one stage invocation from state `s` (the snapshot captured by the
callbacks is `s.stepData`), folding every dispatch through the store. -/
def runStage (s : FigmaStepsState) (inv : StageInvocation) : FigmaStepsState :=
  applyActions s (dispatchesOf (stageEvents s.stepData inv))

/-- The first stage-1 collaborator call that threw, if any, mirroring the
sequential control flow of `connectToFigma`'s try block. -/
def connectCollabThrown (env : ConnectEnv) : Option JsError :=
  match env.validateFigmaUrl with
  | .thrown e => some e
  | .ok validation =>
    if validation.valid = false ∨ validation.fileId.getD "" = "" then none
    else match env.fetchFigmaFile with
      | .thrown e => some e
      | .ok _ =>
        match env.getFileMetadata with
        | .thrown e => some e
        | .ok _ =>
          match env.getFileComponents with
          | .thrown e => some e
          | .ok _ =>
            match env.getFileStyles with
            | .thrown e => some e
            | .ok _ => none

/-! ### Observation helpers for the claims -/

/-- Names of the four per-stage statuses. -/
inductive StepId where
  | s1
  | s2
  | s3
  | s4
  deriving DecidableEq, Repr

/-- Read one stage status by name. -/
def StepStatus.get (st : StepStatus) : StepId → Status
  | .s1 => st.step1
  | .s2 => st.step2
  | .s3 => st.step3
  | .s4 => st.step4

/-- One status change respects "`success`/`error` entered only from
`loading`": if the new value is a terminal status and differs from the
old one, the old one must be `loading`. -/
def entryOk (old new : Status) : Bool :=
  match new with
  | .success => old = .loading || old = .success
  | .error => old = .loading || old = .error
  | _ => true

/-- Every status change of stage `i` along a dispatched action sequence
satisfies `entryOk`. -/
def entriesOk (i : StepId) : FigmaStepsState → List FigmaStepsAction → Bool
  | _, [] => true
  | s, a :: rest =>
    entryOk (s.stepStatus.get i) ((figmaStepsReducer s a).stepStatus.get i) &&
    entriesOk i (figmaStepsReducer s a) rest

/-- The event is the automatic stage-2 invocation. -/
def Event.isAutoStage2 : Event → Bool
  | .invokeAutoGenerateSvg _ _ => true
  | _ => false

/-- The event is a dispatch setting `step1` to `success`. -/
def Event.isStep1SuccessDispatch : Event → Bool
  | .dispatch (.SET_STEP_STATUS p) =>
    match p.step1 with
    | some .success => true
    | _ => false
  | _ => false

/-- The event is an invocation of the stage-3 action. -/
def Event.isStage3Invoke : Event → Bool
  | .invokeSaveCssCode => true
  | _ => false

/-- The event is an invocation of the stage-4 action. -/
def Event.isStage4Invoke : Event → Bool
  | .invokeGenerateFinalCode => true
  | _ => false

/-- The event invokes neither the stage-3 nor the stage-4 action. -/
def Event.noStage34 (e : Event) : Bool :=
  !e.isStage3Invoke && !e.isStage4Invoke

/-! ### Sample environments and states (used to instantiate theorems) -/

/-- A stage-2 environment whose collaborators both succeed. -/
def trivialStage2Env : Stage2Env where
  extractSVGFromFigma := .ok "<svg/>"
  transformer := .ok "function GeneratedComponent() \x7b return (<svg/>); \x7d"

/-- A connect environment whose URL validation rejects. -/
def trivialConnectEnv : ConnectEnv where
  validateFigmaUrl := .thrown (.mk "boom")
  fetchFigmaFile := .thrown (.mk "boom")
  getFileMetadata := .thrown (.mk "boom")
  getFileComponents := .thrown (.mk "boom")
  getFileStyles := .thrown (.mk "boom")
  now := "2024-01-01T00:00:00.000Z"
  stage2 := trivialStage2Env

/-- A connect environment in which every collaborator call succeeds. -/
def successConnectEnv : ConnectEnv where
  validateFigmaUrl := .ok { valid := true, fileId := some "F1", error := none }
  fetchFigmaFile := .ok (.obj [("name", .str "Doc")])
  getFileMetadata := .ok .null
  getFileComponents := .ok .null
  getFileStyles := .ok .null
  now := "2024-01-01T00:00:00.000Z"
  stage2 := trivialStage2Env

/-- A connect environment whose file fetch rejects with a message
containing both `403` and `429`. -/
def deniedConnectEnv : ConnectEnv where
  validateFigmaUrl := .ok { valid := true, fileId := some "F1", error := none }
  fetchFigmaFile := .thrown (.mk "HTTP 403 (after 429 retries)")
  getFileMetadata := .thrown (.mk "boom")
  getFileComponents := .thrown (.mk "boom")
  getFileStyles := .thrown (.mk "boom")
  now := "2024-01-01T00:00:00.000Z"
  stage2 := trivialStage2Env

/-- A connect environment whose URL validation rejects with a message
containing `429` and none of the earlier-matched substrings. -/
def rateLimitConnectEnv : ConnectEnv where
  validateFigmaUrl := .thrown (.mk "HTTP 429: too many requests")
  fetchFigmaFile := .thrown (.mk "boom")
  getFileMetadata := .thrown (.mk "boom")
  getFileComponents := .thrown (.mk "boom")
  getFileStyles := .thrown (.mk "boom")
  now := "2024-01-01T00:00:00.000Z"
  stage2 := trivialStage2Env

/-- The initial state with an access token supplied. -/
def tokenState : FigmaStepsState :=
  figmaStepsReducer initialState (.SET_STEP_DATA { accessToken := some "tok" })

/-- The initial state with CSS code supplied (stage-3 precondition met). -/
def cssReadyState : FigmaStepsState :=
  figmaStepsReducer initialState
    (.SET_STEP_DATA { cssCode := some ".a \x7b color: red; \x7d" })

/-- A stage-4 environment whose code generation succeeds. -/
def trivialStage4Env : Stage4Env where
  generateCode := .ok "generated"
  progressUpdates := ["optimizing"]
  nowTsx := "2024-01-01T00:00:00.000Z"
  nowCss := "2024-01-01T00:00:00.000Z"

/-! ## Claims -/

/-- C4: applying `RESET_ALL` to any state yields exactly the documented
initial state: placeholder `figmaUrl`, all other step-data fields
empty/null, all four statuses `idle`, all expansion flags `false`,
preview mode off, empty errors map, and progress `{0, 4, ""}`. -/
theorem c4_reset_all_restores_initial (s : FigmaStepsState) :
    figmaStepsReducer s .RESET_ALL = initialState ∧
    initialState.stepData.figmaUrl = "https://www.figma.com/design/..." ∧
    initialState.stepData.accessToken = "" ∧
    initialState.stepData.figmaData = JsValue.null ∧
    initialState.stepData.svgCode = "" ∧
    initialState.stepData.generatedTsxCode = "" ∧
    initialState.stepData.cssCode = "" ∧
    initialState.stepData.jsxCode = "" ∧
    initialState.stepData.moreCssCode = "" ∧
    initialState.stepData.finalTsxCode = "" ∧
    initialState.stepData.finalCssCode = "" ∧
    initialState.stepStatus = ⟨.idle, .idle, .idle, .idle⟩ ∧
    initialState.uiState.expandedBlocks = ⟨false, false, false, false⟩ ∧
    initialState.uiState.previewMode = false ∧
    (∀ k, initialState.uiState.errors k = none) ∧
    initialState.uiState.progress = ⟨0, 4, ""⟩ :=
  ⟨rfl, rfl, rfl, rfl, rfl, rfl, rfl, rfl, rfl, rfl, rfl, rfl, rfl, rfl,
   fun _ => rfl, rfl⟩

/-- C5: the four merge actions overwrite exactly the payload fields
(absent fields keep their prior value) and leave every sibling branch of
the state untouched; `SET_ERROR` rewrites only the addressed errors-map
entry.  All equations hold for every state and payload, so no action can
partially fail. -/
theorem c5_merge_actions_are_frame_precise (s : FigmaStepsState)
    (pd : PartialStepData) (ps : PartialStepStatus) (pu : PartialUIState)
    (pp : PartialProgress) (key msg : String) :
    ((figmaStepsReducer s (.SET_STEP_DATA pd)).stepData.figmaUrl =
        pd.figmaUrl.getD s.stepData.figmaUrl ∧
      (figmaStepsReducer s (.SET_STEP_DATA pd)).stepData.accessToken =
        pd.accessToken.getD s.stepData.accessToken ∧
      (figmaStepsReducer s (.SET_STEP_DATA pd)).stepData.figmaData =
        pd.figmaData.getD s.stepData.figmaData ∧
      (figmaStepsReducer s (.SET_STEP_DATA pd)).stepData.svgCode =
        pd.svgCode.getD s.stepData.svgCode ∧
      (figmaStepsReducer s (.SET_STEP_DATA pd)).stepData.generatedTsxCode =
        pd.generatedTsxCode.getD s.stepData.generatedTsxCode ∧
      (figmaStepsReducer s (.SET_STEP_DATA pd)).stepData.cssCode =
        pd.cssCode.getD s.stepData.cssCode ∧
      (figmaStepsReducer s (.SET_STEP_DATA pd)).stepData.jsxCode =
        pd.jsxCode.getD s.stepData.jsxCode ∧
      (figmaStepsReducer s (.SET_STEP_DATA pd)).stepData.moreCssCode =
        pd.moreCssCode.getD s.stepData.moreCssCode ∧
      (figmaStepsReducer s (.SET_STEP_DATA pd)).stepData.finalTsxCode =
        pd.finalTsxCode.getD s.stepData.finalTsxCode ∧
      (figmaStepsReducer s (.SET_STEP_DATA pd)).stepData.finalCssCode =
        pd.finalCssCode.getD s.stepData.finalCssCode) ∧
    ((figmaStepsReducer s (.SET_STEP_DATA pd)).stepStatus = s.stepStatus ∧
      (figmaStepsReducer s (.SET_STEP_DATA pd)).uiState = s.uiState) ∧
    ((figmaStepsReducer s (.SET_STEP_STATUS ps)).stepStatus.step1 =
        ps.step1.getD s.stepStatus.step1 ∧
      (figmaStepsReducer s (.SET_STEP_STATUS ps)).stepStatus.step2 =
        ps.step2.getD s.stepStatus.step2 ∧
      (figmaStepsReducer s (.SET_STEP_STATUS ps)).stepStatus.step3 =
        ps.step3.getD s.stepStatus.step3 ∧
      (figmaStepsReducer s (.SET_STEP_STATUS ps)).stepStatus.step4 =
        ps.step4.getD s.stepStatus.step4) ∧
    ((figmaStepsReducer s (.SET_STEP_STATUS ps)).stepData = s.stepData ∧
      (figmaStepsReducer s (.SET_STEP_STATUS ps)).uiState = s.uiState) ∧
    ((figmaStepsReducer s (.SET_UI_STATE pu)).uiState.expandedBlocks =
        pu.expandedBlocks.getD s.uiState.expandedBlocks ∧
      (figmaStepsReducer s (.SET_UI_STATE pu)).uiState.previewMode =
        pu.previewMode.getD s.uiState.previewMode ∧
      (figmaStepsReducer s (.SET_UI_STATE pu)).uiState.errors =
        pu.errors.getD s.uiState.errors ∧
      (figmaStepsReducer s (.SET_UI_STATE pu)).uiState.progress =
        pu.progress.getD s.uiState.progress) ∧
    ((figmaStepsReducer s (.SET_UI_STATE pu)).stepData = s.stepData ∧
      (figmaStepsReducer s (.SET_UI_STATE pu)).stepStatus = s.stepStatus) ∧
    ((figmaStepsReducer s (.SET_PROGRESS pp)).uiState.progress.current =
        pp.current.getD s.uiState.progress.current ∧
      (figmaStepsReducer s (.SET_PROGRESS pp)).uiState.progress.total =
        pp.total.getD s.uiState.progress.total ∧
      (figmaStepsReducer s (.SET_PROGRESS pp)).uiState.progress.message =
        pp.message.getD s.uiState.progress.message) ∧
    ((figmaStepsReducer s (.SET_PROGRESS pp)).uiState.expandedBlocks =
        s.uiState.expandedBlocks ∧
      (figmaStepsReducer s (.SET_PROGRESS pp)).uiState.previewMode =
        s.uiState.previewMode ∧
      (figmaStepsReducer s (.SET_PROGRESS pp)).uiState.errors =
        s.uiState.errors ∧
      (figmaStepsReducer s (.SET_PROGRESS pp)).stepData = s.stepData ∧
      (figmaStepsReducer s (.SET_PROGRESS pp)).stepStatus = s.stepStatus) ∧
    ((∀ k, (figmaStepsReducer s (.SET_ERROR key msg)).uiState.errors k =
        if k = key then some msg else s.uiState.errors k) ∧
      (figmaStepsReducer s (.SET_ERROR key msg)).stepData = s.stepData ∧
      (figmaStepsReducer s (.SET_ERROR key msg)).stepStatus = s.stepStatus ∧
      (figmaStepsReducer s (.SET_ERROR key msg)).uiState.expandedBlocks =
        s.uiState.expandedBlocks ∧
      (figmaStepsReducer s (.SET_ERROR key msg)).uiState.previewMode =
        s.uiState.previewMode ∧
      (figmaStepsReducer s (.SET_ERROR key msg)).uiState.progress =
        s.uiState.progress) :=
  ⟨⟨rfl, rfl, rfl, rfl, rfl, rfl, rfl, rfl, rfl, rfl⟩, ⟨rfl, rfl⟩,
   ⟨rfl, rfl, rfl, rfl⟩, ⟨rfl, rfl⟩, ⟨rfl, rfl, rfl, rfl⟩, ⟨rfl, rfl⟩,
   ⟨rfl, rfl, rfl⟩, ⟨rfl, rfl, rfl, rfl, rfl⟩,
   ⟨fun _ => rfl, rfl, rfl, rfl, rfl, rfl⟩⟩

/-- C10: `TOGGLE_BLOCK` applied twice to the same key is the identity,
and a single application flips exactly the addressed expansion flag,
leaving step data, step statuses and every other UI-state field
unchanged. -/
theorem c10_toggle_block_involution (s : FigmaStepsState) (k : BlockKey) :
    figmaStepsReducer (figmaStepsReducer s (.TOGGLE_BLOCK k)) (.TOGGLE_BLOCK k) = s ∧
    (figmaStepsReducer s (.TOGGLE_BLOCK k)).stepData = s.stepData ∧
    (figmaStepsReducer s (.TOGGLE_BLOCK k)).stepStatus = s.stepStatus ∧
    (figmaStepsReducer s (.TOGGLE_BLOCK k)).uiState.previewMode =
      s.uiState.previewMode ∧
    (figmaStepsReducer s (.TOGGLE_BLOCK k)).uiState.errors = s.uiState.errors ∧
    (figmaStepsReducer s (.TOGGLE_BLOCK k)).uiState.progress =
      s.uiState.progress ∧
    ∀ k', (figmaStepsReducer s (.TOGGLE_BLOCK k)).uiState.expandedBlocks.get k' =
      if k' = k then !(s.uiState.expandedBlocks.get k')
      else s.uiState.expandedBlocks.get k' := by
  obtain ⟨sd, ss, ⟨⟨b1, b2, b3, b4⟩, pm, er, pr⟩⟩ := s
  refine ⟨?_, rfl, rfl, rfl, rfl, rfl, ?_⟩
  · cases k <;> simp [figmaStepsReducer, ExpandedBlocks.toggle]
  · intro k'
    cases k <;> cases k' <;>
      simp [figmaStepsReducer, ExpandedBlocks.toggle, ExpandedBlocks.get]

/-- C1: when the snapshot's `figmaUrl` or `accessToken` trims to the
empty string, `connectToFigma` dispatches only the stage-1 validation
error: the step statuses (in particular `step1`) are unchanged, no
`loading` transition occurs, and a non-empty error message is stored
under `step1`. -/
theorem c1_connect_rejects_empty_inputs (s : FigmaStepsState)
    (env : ConnectEnv)
    (h : jsTrim s.stepData.figmaUrl = "" ∨ jsTrim s.stepData.accessToken = "") :
    connectToFigmaEvents s.stepData env =
      [.dispatch (.SET_ERROR "step1"
        "Please provide both Figma URL and Access Token")] ∧
    (runStage s (.connect env)).stepStatus = s.stepStatus ∧
    (runStage s (.connect env)).uiState.errors "step1" =
      some "Please provide both Figma URL and Access Token" ∧
    "Please provide both Figma URL and Access Token" ≠ "" := by
  have hevs : connectToFigmaEvents s.stepData env =
      [.dispatch (.SET_ERROR "step1"
        "Please provide both Figma URL and Access Token")] := by
    unfold connectToFigmaEvents
    exact if_pos h
  refine ⟨hevs, ?_, ?_, by decide⟩
  · simp [runStage, stageEvents, hevs, dispatchesOf, Event.dispatchedAction,
      applyActions, figmaStepsReducer]
  · simp [runStage, stageEvents, hevs, dispatchesOf, Event.dispatchedAction,
      applyActions, figmaStepsReducer]

/-- C1 witness: the initial state has an empty access token, and the
connect action stores the validation message for `step1`. -/
theorem c1_connect_rejects_empty_inputs_witness :
    jsTrim initialState.stepData.accessToken = "" ∧
    (runStage initialState (.connect trivialConnectEnv)).stepStatus =
      initialState.stepStatus ∧
    (runStage initialState (.connect trivialConnectEnv)).uiState.errors "step1" =
      some "Please provide both Figma URL and Access Token" :=
  ⟨by decide,
   (c1_connect_rejects_empty_inputs initialState trivialConnectEnv
     (Or.inr (by decide))).2.1,
   (c1_connect_rejects_empty_inputs initialState trivialConnectEnv
     (Or.inr (by decide))).2.2.1⟩

/-! ### Helper lemmas about dispatched traces -/

theorem entriesOk_append (i : StepId) (s : FigmaStepsState)
    (l1 l2 : List FigmaStepsAction) :
    entriesOk i s (l1 ++ l2) =
      (entriesOk i s l1 && entriesOk i (applyActions s l1) l2) := by
  induction l1 generalizing s with
  | nil => simp [entriesOk, applyActions]
  | cons a rest ih =>
    simp only [List.cons_append, List.append_eq, entriesOk, applyActions,
      List.foldl_cons] at ih ⊢
    rw [ih, Bool.and_assoc]

@[simp] theorem entryOk_refl (x : Status) : entryOk x x = true := by
  cases x <;> rfl

@[simp] theorem entryOk_to_loading (x : Status) : entryOk x .loading = true := rfl

@[simp] theorem entryOk_to_idle (x : Status) : entryOk x .idle = true := rfl

@[simp] theorem entryOk_from_loading (y : Status) : entryOk .loading y = true := by
  cases y <;> rfl

@[simp] theorem stepStatus_set_step_data (st : FigmaStepsState)
    (p : PartialStepData) :
    (figmaStepsReducer st (.SET_STEP_DATA p)).stepStatus = st.stepStatus := rfl

@[simp] theorem stepStatus_set_ui_state (st : FigmaStepsState)
    (p : PartialUIState) :
    (figmaStepsReducer st (.SET_UI_STATE p)).stepStatus = st.stepStatus := rfl

@[simp] theorem stepStatus_set_error (st : FigmaStepsState) (k m : String) :
    (figmaStepsReducer st (.SET_ERROR k m)).stepStatus = st.stepStatus := rfl

@[simp] theorem stepStatus_clear_errors (st : FigmaStepsState) :
    (figmaStepsReducer st .CLEAR_ERRORS).stepStatus = st.stepStatus := rfl

@[simp] theorem stepStatus_toggle_block (st : FigmaStepsState) (k : BlockKey) :
    (figmaStepsReducer st (.TOGGLE_BLOCK k)).stepStatus = st.stepStatus := rfl

@[simp] theorem stepStatus_set_progress (st : FigmaStepsState)
    (p : PartialProgress) :
    (figmaStepsReducer st (.SET_PROGRESS p)).stepStatus = st.stepStatus := rfl

@[simp] theorem stepStatus_set_step_status (st : FigmaStepsState)
    (p : PartialStepStatus) :
    (figmaStepsReducer st (.SET_STEP_STATUS p)).stepStatus =
      mergeStepStatus st.stepStatus p := rfl

theorem entriesOk_stepStatus_congr (i : StepId) (l : List FigmaStepsAction)
    (st1 st2 : FigmaStepsState) (h : st1.stepStatus = st2.stepStatus) :
    entriesOk i st1 l = entriesOk i st2 l := by
  induction l generalizing st1 st2 with
  | nil => rfl
  | cons a rest ih =>
    have hs : (figmaStepsReducer st1 a).stepStatus =
        (figmaStepsReducer st2 a).stepStatus := by
      cases a <;> simp [figmaStepsReducer, h]
    simp only [entriesOk, h, hs, ih _ _ hs]

@[simp] theorem dispatchesOf_progress_map (updates : List String) :
    List.filterMap (Event.dispatchedAction ∘ fun m =>
      Event.dispatch (FigmaStepsAction.SET_PROGRESS { message := some m }))
      updates =
    updates.map (fun m => FigmaStepsAction.SET_PROGRESS { message := some m }) := by
  induction updates with
  | nil => rfl
  | cons x xs ih => simp_all [Event.dispatchedAction, Function.comp]

@[simp] theorem entriesOk_progress_prefix (i : StepId) (updates : List String)
    (suffix : List FigmaStepsAction) (st : FigmaStepsState) :
    entriesOk i st ((updates.map fun m =>
      FigmaStepsAction.SET_PROGRESS { message := some m }) ++ suffix) =
    entriesOk i st suffix := by
  induction updates generalizing st with
  | nil => rfl
  | cons x xs ih =>
    simp only [List.map_cons, List.cons_append, List.append_eq, entriesOk,
      stepStatus_set_progress, entryOk_refl, Bool.true_and]
    rw [ih, entriesOk_stepStatus_congr i suffix _ st
      (stepStatus_set_progress st _)]

/-! ### C3 -/

/-- C3 counterexample: from the initial state, supplying CSS text with
the basic `SET_STEP_DATA` action and invoking the stage-3 action drives
`step3` from `idle` directly to `success`, never passing through
`loading` — the claimed invariant fails on a reachable transition. -/
theorem c3_counterexample_step3_skips_loading :
    cssReadyState =
      figmaStepsReducer initialState
        (.SET_STEP_DATA { cssCode := some ".a \x7b color: red; \x7d" }) ∧
    cssReadyState.stepStatus.step3 = .idle ∧
    (runStage cssReadyState .saveCss).stepStatus.step3 = .success ∧
    Status.idle ≠ Status.loading :=
  ⟨rfl, by decide, by decide, by decide⟩

/-- C3 (amended): restricted to the four stage actions (the basic
`SET_STEP_STATUS` action can force arbitrary transitions) and to stages
1, 2 and 4 (the stage-3 action sets `step3` to `success` without a
`loading` phase), the invariant half that holds is: within any single
stage invocation, from any starting state, `step1`, `step2` and `step4`
enter `success` or `error` only from `loading`.  (A stage may re-enter
`loading` from `success` on retry, so the `loading`-entry half is not
restored.) -/
theorem c3_amended_terminal_entries_only_from_loading (s : FigmaStepsState)
    (inv : StageInvocation) (i : StepId)
    (h : i = .s1 ∨ i = .s2 ∨ i = .s4) :
    entriesOk i s (dispatchesOf (stageEvents s.stepData inv)) = true := by
  have hcss : ∀ (st : FigmaStepsState),
      entriesOk i st (dispatchesOf (saveCssCodeEvents st.stepData)) = true := by
    intro st
    unfold saveCssCodeEvents
    rcases h with rfl | rfl | rfl <;>
      by_cases hc : jsTrim st.stepData.cssCode = "" <;>
        simp [hc, dispatchesOf, Event.dispatchedAction, entriesOk,
          mergeStepStatus, StepStatus.get]
  cases inv with
  | saveCss => exact hcss s
  | generateSvg svgContent env =>
    obtain ⟨ext, trans⟩ := env
    unfold stageEvents generateSvgCodeEvents
    by_cases h0 : jsTrim (jsOrString svgContent s.stepData.svgCode) = ""
    · rcases h with rfl | rfl | rfl <;>
        simp [h0, dispatchesOf, Event.dispatchedAction, entriesOk]
    · by_cases h1 : jsIncludes (jsOrString svgContent s.stepData.svgCode) "<svg" = false ∧
          jsIncludes (jsOrString svgContent s.stepData.svgCode) "<path" = false ∧
          jsIncludes (jsOrString svgContent s.stepData.svgCode) "<rect" = false ∧
          jsIncludes (jsOrString svgContent s.stepData.svgCode) "<circle" = false
      · rcases h with rfl | rfl | rfl <;>
          simp [h0, h1, dispatchesOf, Event.dispatchedAction, entriesOk,
            svgCatchEvents, mergeStepStatus, StepStatus.get,
            classifySvgError]
      · cases trans <;> rcases h with rfl | rfl | rfl <;>
          simp [h0, h1, dispatchesOf, Event.dispatchedAction, entriesOk,
            svgCatchEvents, mergeStepStatus, StepStatus.get]
  | generateFinal env =>
    obtain ⟨gen, updates, nowT, nowC⟩ := env
    unfold stageEvents generateFinalCodeEvents
    by_cases h0 : jsTrim s.stepData.jsxCode = "" ∧ jsTrim s.stepData.moreCssCode = ""
    · rcases h with rfl | rfl | rfl <;>
        simp [h0, dispatchesOf, Event.dispatchedAction, entriesOk]
    · cases gen <;> rcases h with rfl | rfl | rfl <;>
        simp [h0, dispatchesOf, Event.dispatchedAction, List.filterMap_append,
          List.filterMap_map, entriesOk, mergeStepStatus, StepStatus.get]
  | connect env =>
    obtain ⟨val, ff, md, comp, sty, now, ⟨ext, trans⟩⟩ := env
    unfold stageEvents connectToFigmaEvents
    by_cases h0 : jsTrim s.stepData.figmaUrl = "" ∨ jsTrim s.stepData.accessToken = ""
    · rcases h with rfl | rfl | rfl <;>
        simp [h0, dispatchesOf, Event.dispatchedAction, entriesOk]
    · cases val with
      | thrown e =>
        rcases h with rfl | rfl | rfl <;>
          simp [h0, connectCatchEvents, dispatchesOf, Event.dispatchedAction,
            entriesOk, mergeStepStatus, StepStatus.get]
      | ok v =>
        by_cases h1 : v.valid = false ∨ v.fileId.getD "" = ""
        · rcases h with rfl | rfl | rfl <;>
            simp [h0, h1, connectCatchEvents, dispatchesOf,
              Event.dispatchedAction, entriesOk, mergeStepStatus,
              StepStatus.get]
        · cases ff with
          | thrown e =>
            rcases h with rfl | rfl | rfl <;>
              simp [h0, h1, connectCatchEvents, dispatchesOf,
                Event.dispatchedAction, entriesOk, mergeStepStatus,
                StepStatus.get]
          | ok ffv =>
            cases md with
            | thrown e =>
              rcases h with rfl | rfl | rfl <;>
                simp [h0, h1, connectCatchEvents, dispatchesOf,
                  Event.dispatchedAction, entriesOk, mergeStepStatus,
                  StepStatus.get]
            | ok mdv =>
              cases comp with
              | thrown e =>
                rcases h with rfl | rfl | rfl <;>
                  simp [h0, h1, connectCatchEvents, dispatchesOf,
                    Event.dispatchedAction, entriesOk, mergeStepStatus,
                    StepStatus.get]
              | ok compv =>
                cases sty with
                | thrown e =>
                  rcases h with rfl | rfl | rfl <;>
                    simp [h0, h1, connectCatchEvents, dispatchesOf,
                      Event.dispatchedAction, entriesOk,
                      mergeStepStatus, StepStatus.get]
                | ok styv =>
                  cases ext with
                  | thrown e =>
                    rcases h with rfl | rfl | rfl <;>
                      simp [h0, h1, autoGenerateSvgEvents, dispatchesOf,
                        Event.dispatchedAction, entriesOk,
                        mergeStepStatus, StepStatus.get]
                  | ok svgContent =>
                    by_cases h2 : jsTrim (jsOrString (some svgContent)
                        s.stepData.svgCode) = ""
                    · rcases h with rfl | rfl | rfl <;>
                        simp [h0, h1, h2, autoGenerateSvgEvents,
                          generateSvgCodeEvents, dispatchesOf,
                          Event.dispatchedAction, entriesOk,
                          mergeStepStatus, StepStatus.get]
                    · by_cases h3 :
                          jsIncludes (jsOrString (some svgContent)
                            s.stepData.svgCode) "<svg" = false ∧
                          jsIncludes (jsOrString (some svgContent)
                            s.stepData.svgCode) "<path" = false ∧
                          jsIncludes (jsOrString (some svgContent)
                            s.stepData.svgCode) "<rect" = false ∧
                          jsIncludes (jsOrString (some svgContent)
                            s.stepData.svgCode) "<circle" = false
                      · rcases h with rfl | rfl | rfl <;>
                          simp [h0, h1, h2, h3, autoGenerateSvgEvents,
                            generateSvgCodeEvents, svgCatchEvents,
                            dispatchesOf, Event.dispatchedAction, entriesOk,
                            mergeStepStatus, StepStatus.get]
                      · cases trans <;> rcases h with rfl | rfl | rfl <;>
                          simp [h0, h1, h2, h3, autoGenerateSvgEvents,
                            generateSvgCodeEvents, svgCatchEvents,
                            dispatchesOf, Event.dispatchedAction, entriesOk,
                            mergeStepStatus, StepStatus.get]

/-- C3 (amended) witness: a successful connect run from the initial
state with a token satisfies the entry discipline for `step1`. -/
theorem c3_amended_terminal_entries_witness :
    (StepId.s1 = StepId.s1 ∨ StepId.s1 = StepId.s2 ∨ StepId.s1 = StepId.s4) ∧
    entriesOk .s1 tokenState
      (dispatchesOf (stageEvents tokenState.stepData
        (.connect successConnectEnv))) = true :=
  ⟨Or.inl rfl,
   c3_amended_terminal_entries_only_from_loading tokenState
     (.connect successConnectEnv) .s1 (Or.inl rfl)⟩

/-! ### C2 -/

theorem generateSvg_no_stage1_events (svgContent : Option String)
    (snap : StepData) (env : Stage2Env) :
    (generateSvgCodeEvents svgContent snap env).countP Event.isAutoStage2 = 0 ∧
    (generateSvgCodeEvents svgContent snap env).countP
      Event.isStep1SuccessDispatch = 0 := by
  unfold generateSvgCodeEvents
  by_cases h0 : jsTrim (jsOrString svgContent snap.svgCode) = ""
  · simp [h0, List.countP_cons, Event.isAutoStage2, Event.isStep1SuccessDispatch]
  · by_cases h1 : jsIncludes (jsOrString svgContent snap.svgCode) "<svg" = false ∧
        jsIncludes (jsOrString svgContent snap.svgCode) "<path" = false ∧
        jsIncludes (jsOrString svgContent snap.svgCode) "<rect" = false ∧
        jsIncludes (jsOrString svgContent snap.svgCode) "<circle" = false
    · simp [h0, h1, svgCatchEvents, List.countP_cons, List.countP_append,
        Event.isAutoStage2, Event.isStep1SuccessDispatch]
    · cases htr : env.transformer <;>
        simp [h0, h1, htr, svgCatchEvents, List.countP_cons,
          List.countP_append, Event.isAutoStage2, Event.isStep1SuccessDispatch]

theorem autoGenerateSvg_no_stage1_events (fd : JsValue) (fid : String)
    (snap : StepData) (env : Stage2Env) :
    (autoGenerateSvgEvents fd fid snap env).countP Event.isAutoStage2 = 0 ∧
    (autoGenerateSvgEvents fd fid snap env).countP
      Event.isStep1SuccessDispatch = 0 := by
  unfold autoGenerateSvgEvents
  cases hex : env.extractSVGFromFigma <;>
    simp [hex, List.countP_cons, List.countP_append,
      (generateSvg_no_stage1_events _ snap env).1,
      (generateSvg_no_stage1_events _ snap env).2,
      Event.isAutoStage2, Event.isStep1SuccessDispatch]

@[simp] theorem progress_map_all_noStage34 (updates : List String) :
    (updates.map fun m =>
      Event.dispatch (FigmaStepsAction.SET_PROGRESS { message := some m })).all
      Event.noStage34 = true := by
  induction updates with
  | nil => rfl
  | cons x xs ih =>
    simp_all [Event.noStage34, Event.isStage3Invoke, Event.isStage4Invoke]

theorem generateSvg_all_noStage34 (svgContent : Option String)
    (snap : StepData) (env : Stage2Env) :
    (generateSvgCodeEvents svgContent snap env).all Event.noStage34 = true := by
  unfold generateSvgCodeEvents
  by_cases h0 : jsTrim (jsOrString svgContent snap.svgCode) = ""
  · simp [h0, Event.noStage34, Event.isStage3Invoke, Event.isStage4Invoke]
  · by_cases h1 : jsIncludes (jsOrString svgContent snap.svgCode) "<svg" = false ∧
        jsIncludes (jsOrString svgContent snap.svgCode) "<path" = false ∧
        jsIncludes (jsOrString svgContent snap.svgCode) "<rect" = false ∧
        jsIncludes (jsOrString svgContent snap.svgCode) "<circle" = false
    · simp [h0, h1, svgCatchEvents, Event.noStage34, Event.isStage3Invoke,
        Event.isStage4Invoke]
    · cases htr : env.transformer <;>
        simp [h0, h1, htr, svgCatchEvents, Event.noStage34,
          Event.isStage3Invoke, Event.isStage4Invoke]

theorem autoGenerateSvg_all_noStage34 (fd : JsValue) (fid : String)
    (snap : StepData) (env : Stage2Env) :
    (autoGenerateSvgEvents fd fid snap env).all Event.noStage34 = true := by
  unfold autoGenerateSvgEvents
  cases hex : env.extractSVGFromFigma <;>
    simp [hex, List.all_append, generateSvg_all_noStage34, Event.noStage34,
      Event.isStage3Invoke, Event.isStage4Invoke]

/-- C2: every `connectToFigma` execution dispatches the stage-1 success
transition exactly as often as it auto-invokes stage 2; whenever the
success transition occurs, stage 2 is auto-invoked exactly once, with
the same bundle the execution stored into `figmaData`; and no stage
execution ever invokes the stage-3 or stage-4 actions. -/
theorem c2_stage2_auto_invoked_once_on_success (snap : StepData)
    (env : ConnectEnv) :
    ((connectToFigmaEvents snap env).countP Event.isAutoStage2 =
        (connectToFigmaEvents snap env).countP Event.isStep1SuccessDispatch ∧
      ((∃ e ∈ connectToFigmaEvents snap env,
          Event.isStep1SuccessDispatch e = true) →
        ∃ b fid,
          (connectToFigmaEvents snap env).countP Event.isAutoStage2 = 1 ∧
          Event.invokeAutoGenerateSvg b fid ∈ connectToFigmaEvents snap env ∧
          Event.dispatch (.SET_STEP_DATA { figmaData := some b }) ∈
            connectToFigmaEvents snap env)) ∧
    ∀ (s : FigmaStepsState) (inv : StageInvocation),
      (stageEvents s.stepData inv).all Event.noStage34 = true := by
  constructor
  · obtain ⟨val, ff, md, comp, sty, now, ⟨ext, trans⟩⟩ := env
    unfold connectToFigmaEvents
    by_cases h0 : jsTrim snap.figmaUrl = "" ∨ jsTrim snap.accessToken = ""
    · refine ⟨by simp [h0, Event.isAutoStage2, Event.isStep1SuccessDispatch],
        fun hex => absurd hex (by
          simp [h0, Event.isStep1SuccessDispatch])⟩
    · cases val with
      | thrown e =>
        refine ⟨by simp [h0, connectCatchEvents, List.countP_cons,
            Event.isAutoStage2, Event.isStep1SuccessDispatch],
          fun hex => absurd hex (by
            simp [h0, connectCatchEvents, Event.isStep1SuccessDispatch])⟩
      | ok v =>
        by_cases h1 : v.valid = false ∨ v.fileId.getD "" = ""
        · refine ⟨by simp [h0, h1, connectCatchEvents, List.countP_cons,
              Event.isAutoStage2, Event.isStep1SuccessDispatch],
            fun hex => absurd hex (by
              simp [h0, h1, connectCatchEvents, Event.isStep1SuccessDispatch])⟩
        · cases ff with
          | thrown e =>
            refine ⟨by simp [h0, h1, connectCatchEvents, List.countP_cons,
                List.countP_append, Event.isAutoStage2,
                Event.isStep1SuccessDispatch],
              fun hex => absurd hex (by
                simp [h0, h1, connectCatchEvents, Event.isStep1SuccessDispatch])⟩
          | ok ffv =>
            cases md with
            | thrown e =>
              refine ⟨by simp [h0, h1, connectCatchEvents, List.countP_cons,
                  List.countP_append, Event.isAutoStage2,
                  Event.isStep1SuccessDispatch],
                fun hex => absurd hex (by
                  simp [h0, h1, connectCatchEvents,
                    Event.isStep1SuccessDispatch])⟩
            | ok mdv =>
              cases comp with
              | thrown e =>
                refine ⟨by simp [h0, h1, connectCatchEvents, List.countP_cons,
                    List.countP_append, Event.isAutoStage2,
                    Event.isStep1SuccessDispatch],
                  fun hex => absurd hex (by
                    simp [h0, h1, connectCatchEvents,
                      Event.isStep1SuccessDispatch])⟩
              | ok compv =>
                cases sty with
                | thrown e =>
                  refine ⟨by simp [h0, h1, connectCatchEvents,
                      List.countP_cons, List.countP_append,
                      Event.isAutoStage2, Event.isStep1SuccessDispatch],
                    fun hex => absurd hex (by
                      simp [h0, h1, connectCatchEvents,
                        Event.isStep1SuccessDispatch])⟩
                | ok styv =>
                  refine ⟨?_, fun _ => ?_⟩
                  · simp [h0, h1, List.countP_cons, List.countP_append,
                      (autoGenerateSvg_no_stage1_events _ _ snap ⟨ext, trans⟩).1,
                      (autoGenerateSvg_no_stage1_events _ _ snap ⟨ext, trans⟩).2,
                      Event.isAutoStage2, Event.isStep1SuccessDispatch]
                  · refine ⟨connectCompleteData ffv mdv compv styv
                        (v.fileId.getD "") now, v.fileId.getD "", ?_, ?_, ?_⟩
                    · simp [h0, h1, List.countP_cons, List.countP_append,
                        (autoGenerateSvg_no_stage1_events _ _ snap
                          ⟨ext, trans⟩).1,
                        Event.isAutoStage2]
                    · simp [h0, h1, List.mem_append]
                    · simp [h0, h1, List.mem_append]
  · intro s inv
    cases inv with
    | saveCss =>
      unfold stageEvents saveCssCodeEvents
      by_cases hc : jsTrim s.stepData.cssCode = "" <;>
        simp [hc, Event.noStage34, Event.isStage3Invoke, Event.isStage4Invoke]
    | generateSvg svgContent env2 =>
      exact generateSvg_all_noStage34 svgContent s.stepData env2
    | generateFinal env4 =>
      obtain ⟨gen, updates, nowT, nowC⟩ := env4
      unfold stageEvents generateFinalCodeEvents
      by_cases h0 : jsTrim s.stepData.jsxCode = "" ∧
          jsTrim s.stepData.moreCssCode = ""
      · simp [h0, Event.noStage34, Event.isStage3Invoke, Event.isStage4Invoke]
      · cases gen <;>
          simp [h0, List.all_append, Event.noStage34, Event.isStage3Invoke,
            Event.isStage4Invoke]
    | connect envc =>
      obtain ⟨val, ff, md, comp, sty, now, ⟨ext, trans⟩⟩ := envc
      unfold stageEvents connectToFigmaEvents
      by_cases h0 : jsTrim s.stepData.figmaUrl = "" ∨
          jsTrim s.stepData.accessToken = ""
      · simp [h0, Event.noStage34, Event.isStage3Invoke, Event.isStage4Invoke]
      · cases val with
        | thrown e =>
          simp [h0, connectCatchEvents, Event.noStage34, Event.isStage3Invoke,
            Event.isStage4Invoke]
        | ok v =>
          by_cases h1 : v.valid = false ∨ v.fileId.getD "" = ""
          · simp [h0, h1, connectCatchEvents, Event.noStage34,
              Event.isStage3Invoke, Event.isStage4Invoke]
          · cases ff with
            | thrown e =>
              simp [h0, h1, connectCatchEvents, Event.noStage34,
                Event.isStage3Invoke, Event.isStage4Invoke]
            | ok ffv =>
              cases md with
              | thrown e =>
                simp [h0, h1, connectCatchEvents, Event.noStage34,
                  Event.isStage3Invoke, Event.isStage4Invoke]
              | ok mdv =>
                cases comp with
                | thrown e =>
                  simp [h0, h1, connectCatchEvents, Event.noStage34,
                    Event.isStage3Invoke, Event.isStage4Invoke]
                | ok compv =>
                  cases sty with
                  | thrown e =>
                    simp [h0, h1, connectCatchEvents, Event.noStage34,
                      Event.isStage3Invoke, Event.isStage4Invoke]
                  | ok styv =>
                    simp [h0, h1, List.all_append,
                      autoGenerateSvg_all_noStage34, Event.noStage34,
                      Event.isStage3Invoke, Event.isStage4Invoke]

/-- C2 witness: a fully successful connect run from the tokenised initial
state dispatches the stage-1 success transition and auto-invokes stage 2
exactly once with the stored bundle. -/
theorem c2_stage2_auto_invoked_once_on_success_witness :
    (∃ e ∈ connectToFigmaEvents tokenState.stepData successConnectEnv,
        Event.isStep1SuccessDispatch e = true) ∧
    ∃ b fid,
      (connectToFigmaEvents tokenState.stepData successConnectEnv).countP
        Event.isAutoStage2 = 1 ∧
      Event.invokeAutoGenerateSvg b fid ∈
        connectToFigmaEvents tokenState.stepData successConnectEnv ∧
      Event.dispatch (.SET_STEP_DATA { figmaData := some b }) ∈
        connectToFigmaEvents tokenState.stepData successConnectEnv := by
  have hex : ∃ e ∈ connectToFigmaEvents tokenState.stepData successConnectEnv,
      Event.isStep1SuccessDispatch e = true := by decide
  exact ⟨hex,
    (c2_stage2_auto_invoked_once_on_success tokenState.stepData
      successConnectEnv).1.2 hex⟩

/-! ### String-splicing lemmas -/

theorem prefixB_iff (pat : List Char) :
    ∀ s, prefixB pat s = true ↔ ∃ t, s = pat ++ t := by
  induction pat with
  | nil => intro s; simp [prefixB]
  | cons c cs ih =>
    intro s
    cases s with
    | nil => simp [prefixB]
    | cons d ds =>
      simp only [prefixB, Bool.and_eq_true, decide_eq_true_eq, ih,
        List.cons_append, List.cons.injEq]
      constructor
      · rintro ⟨rfl, t, rfl⟩
        exact ⟨t, rfl, rfl⟩
      · rintro ⟨t, rfl, rfl⟩
        exact ⟨rfl, t, rfl⟩

theorem infixB_iff (pat : List Char) :
    ∀ s, infixB pat s = true ↔ ∃ x y, s = x ++ pat ++ y := by
  intro s
  induction s with
  | nil =>
    simp only [infixB, List.isEmpty_iff]
    constructor
    · rintro rfl
      exact ⟨[], [], rfl⟩
    · rintro ⟨x, y, hxy⟩
      rcases List.append_eq_nil.mp hxy.symm with ⟨h1, rfl⟩
      rcases List.append_eq_nil.mp h1 with ⟨rfl, rfl⟩
      rfl
  | cons c rest ih =>
    simp only [infixB, Bool.or_eq_true, prefixB_iff, ih]
    constructor
    · rintro (⟨t, ht⟩ | ⟨x, y, rfl⟩)
      · exact ⟨[], t, by simpa using ht⟩
      · exact ⟨c :: x, y, rfl⟩
    · rintro ⟨x, y, hxy⟩
      cases x with
      | nil => exact Or.inl ⟨y, by simpa using hxy⟩
      | cons d x' =>
        simp only [List.cons_append, List.cons.injEq] at hxy
        exact Or.inr ⟨x', y, hxy.2⟩

theorem splitFirst_some (pat : List Char) :
    ∀ (s b a : List Char), splitFirst pat s = some (b, a) →
      s = b ++ pat ++ a := by
  intro s
  induction s with
  | nil =>
    intro b a h
    unfold splitFirst at h
    split at h
    · rename_i he
      simp only [Option.some.injEq, Prod.mk.injEq] at h
      obtain ⟨rfl, rfl⟩ := h
      simp [List.isEmpty_iff.mp he]
    · exact absurd h (by simp)
  | cons c rest ih =>
    intro b a h
    unfold splitFirst at h
    split at h
    · rename_i hp
      simp only [Option.some.injEq, Prod.mk.injEq] at h
      obtain ⟨rfl, rfl⟩ := h
      obtain ⟨t, ht⟩ := (prefixB_iff pat (c :: rest)).mp hp
      rw [ht]
      simp [List.drop_left]
    · rename_i hp
      cases hr : splitFirst pat rest with
      | none => rw [hr] at h; exact absurd h (by simp)
      | some ba =>
        obtain ⟨b2, a2⟩ := ba
        rw [hr] at h
        simp only [Option.some.injEq, Prod.mk.injEq] at h
        obtain ⟨rfl, rfl⟩ := h
        simpa using ih b2 a2 hr

theorem splitFirst_of_occurs (pat : List Char) :
    ∀ (x y : List Char), splitFirst pat (x ++ pat ++ y) ≠ none := by
  intro x
  induction x with
  | nil =>
    intro y
    have hp : prefixB pat (pat ++ y) = true := (prefixB_iff pat _).mpr ⟨y, rfl⟩
    cases hpy : pat ++ y with
    | nil =>
      rcases List.append_eq_nil.mp hpy with ⟨rfl, rfl⟩
      simp [splitFirst]
    | cons d ds =>
      rw [List.nil_append, hpy]
      unfold splitFirst
      rw [if_pos (hpy ▸ hp)]
      simp
  | cons c x' ih =>
    intro y
    show splitFirst pat (c :: (x' ++ pat ++ y)) ≠ none
    unfold splitFirst
    by_cases hp : prefixB pat (c :: (x' ++ pat ++ y)) = true
    · rw [if_pos hp]; simp
    · rw [if_neg hp]
      cases hr : splitFirst pat (x' ++ pat ++ y) with
      | none => exact absurd hr (ih y)
      | some ba => simp

theorem getSubstitution_no_dollar (m b a : List Char) :
    ∀ t, '$' ∉ t → getSubstitution m b a t = t := by
  intro t
  induction t with
  | nil => intro _; rfl
  | cons c t' ih =>
    intro h
    cases t' with
    | nil => rfl
    | cons d rest =>
      have hc : ¬(c = '$') := by
        rintro rfl
        exact h (List.mem_cons_self _ _)
      simp only [getSubstitution, if_neg hc]
      rw [ih (fun hm => h (List.mem_cons_of_mem c hm))]

theorem occurs_append_decomp {α : Type} {p a b : List α}
    (h : ∃ x y, a ++ b = x ++ p ++ y) :
    (∃ x y, a = x ++ p ++ y) ∨ (∃ x y, b = x ++ p ++ y) ∨
      ∃ p1 p2, p = p1 ++ p2 ∧ p1 ≠ [] ∧ p2 ≠ [] ∧
        (∃ x, a = x ++ p1) ∧ ∃ y, b = p2 ++ y := by
  obtain ⟨x, y, hxy⟩ := h
  rw [List.append_assoc] at hxy
  rcases List.append_eq_append_iff.mp hxy with ⟨k, hx, hb⟩ | ⟨k, ha, hky⟩
  · refine Or.inr (Or.inl ⟨k, y, ?_⟩)
    rw [hb, List.append_assoc]
  · rcases List.append_eq_append_iff.mp hky with ⟨j, hk, hy⟩ | ⟨j, hp, hbj⟩
    · refine Or.inl ⟨x, j, ?_⟩
      rw [ha, hk, List.append_assoc]
    · cases j with
      | nil =>
        refine Or.inl ⟨x, [], ?_⟩
        rw [List.append_nil] at hp
        rw [ha, hp, List.append_nil]
      | cons j0 js =>
        cases k with
        | nil =>
          refine Or.inr (Or.inl ⟨[], y, ?_⟩)
          rw [List.nil_append] at hp
          rw [hbj, ← hp, List.nil_append]
        | cons k0 ks =>
          exact Or.inr (Or.inr ⟨k0 :: ks, j0 :: js, hp, by simp, by simp,
            ⟨x, ha⟩, ⟨y, hbj⟩⟩)

theorem mem_of_head_pre {α : Type} {p b : List α} {c : α} (hne : p ≠ [])
    (h : ∃ y, b = p ++ y) (hb : b.head? = some c) : c ∈ p := by
  obtain ⟨y, rfl⟩ := h
  cases p with
  | nil => exact absurd rfl hne
  | cons d p' =>
    obtain rfl : d = c := by simpa using hb
    exact List.mem_cons_self _ _

theorem mem_of_last_suf {α : Type} {p a : List α} {c : α} (hne : p ≠ [])
    (h : ∃ x, a = x ++ p) (ha : a.getLast? = some c) : c ∈ p := by
  obtain ⟨x, rfl⟩ := h
  rw [List.getLast?_append_of_ne_nil x hne] at ha
  exact List.mem_of_mem_getLast? (by simp [ha])

/-! ### C9 -/

/-- C9 counterexample: with a generated source that does not match the
pattern and a truthy document-metadata value, the combiner does not
return the markup unmodified — the metadata comment is prepended. -/
theorem c9_counterexample_metadata_prepended :
    jsReturnMatch ("x" : String).data = none ∧
    combineCodePieces "x" "y" (JsValue.obj []) "T" ≠ "x" := by
  constructor
  · rfl
  · decide

/-- C9 (amended): when the generated source does not match the
`return ( ... );` pattern, no splice is attempted and no error is
raised: the output is exactly the metadata comment (when document
metadata is truthy) prepended to the unmodified generated source; with
null/falsy metadata the source is returned unchanged. -/
theorem c9_amended_no_match_leaves_markup (g u : String) (fd : JsValue)
    (now : String) (h : jsReturnMatch g.data = none) :
    combineCodePieces g u fd now =
      if fd.truthy = true then figmaMetadataComment fd now ++ g else g := by
  unfold combineCodePieces
  by_cases hu : jsTrim u ≠ "" <;> simp [hu, h]

/-- C9 witness: with null metadata a non-matching source passes through
unchanged. -/
theorem c9_amended_no_match_leaves_markup_witness :
    jsReturnMatch ("x" : String).data = none ∧
    combineCodePieces "x" "y" JsValue.null "T" = "x" := by
  have h : jsReturnMatch ("x" : String).data = none := by rfl
  have h2 := c9_amended_no_match_leaves_markup "x" "y" JsValue.null "T" h
  simp only [JsValue.truthy] at h2
  exact ⟨h, by simpa using h2⟩

/-! ### C6 -/

@[simp] theorem errors_set_step_data (st : FigmaStepsState)
    (p : PartialStepData) :
    (figmaStepsReducer st (.SET_STEP_DATA p)).uiState.errors =
      st.uiState.errors := rfl

@[simp] theorem errors_set_step_status (st : FigmaStepsState)
    (p : PartialStepStatus) :
    (figmaStepsReducer st (.SET_STEP_STATUS p)).uiState.errors =
      st.uiState.errors := rfl

@[simp] theorem errors_set_progress (st : FigmaStepsState)
    (p : PartialProgress) :
    (figmaStepsReducer st (.SET_PROGRESS p)).uiState.errors =
      st.uiState.errors := rfl

@[simp] theorem errors_clear_errors (st : FigmaStepsState) :
    (figmaStepsReducer st .CLEAR_ERRORS).uiState.errors = fun _ => none := rfl

@[simp] theorem errors_set_error (st : FigmaStepsState) (k m : String) :
    (figmaStepsReducer st (.SET_ERROR k m)).uiState.errors =
      fun q => if q = k then some m else st.uiState.errors q := rfl

theorem classify_connect_403 (m : String) (h : jsIncludes m "403" = true) :
    classifyConnectError (.mk m) = accessDeniedMessage := by
  unfold classifyConnectError
  simp [h]

theorem classify_connect_429 (m : String) (h429 : jsIncludes m "429" = true)
    (hAD : jsIncludes m "Access denied" = false)
    (h403 : jsIncludes m "403" = false) (h404 : jsIncludes m "404" = false)
    (h401 : jsIncludes m "401" = false) :
    classifyConnectError (.mk m) = rateLimitMessage := by
  unfold classifyConnectError
  simp [h429, hAD, h403, h404, h401]

/-- C6 counterexample: a stage-1 collaborator error whose message
contains both `403` and `429` is stored as the access-denied message,
not the rate-limit message, so the `429` half of the claim fails as
stated. -/
theorem c6_counterexample_429_masked_by_403 :
    connectCollabThrown deniedConnectEnv =
      some (.mk "HTTP 403 (after 429 retries)") ∧
    jsIncludes "HTTP 403 (after 429 retries)" "429" = true ∧
    (runStage tokenState (.connect deniedConnectEnv)).uiState.errors "step1" =
      some accessDeniedMessage ∧
    accessDeniedMessage ≠ rateLimitMessage := by
  refine ⟨by rfl, by decide, by decide, by decide⟩

/-- C6 (amended): for every error thrown from a stage-1 collaborator
call, a message containing `403` always stores the access-denied
message; a message containing `429` stores the rate-limit message
provided it does not also contain one of the earlier-matched substrings
`Access denied`, `403`, `404`, `401`. -/
theorem c6_amended_connect_error_classification (s : FigmaStepsState)
    (env : ConnectEnv) (m : String)
    (hne : ¬(jsTrim s.stepData.figmaUrl = "" ∨ jsTrim s.stepData.accessToken = ""))
    (ht : connectCollabThrown env = some (.mk m)) :
    (jsIncludes m "403" = true →
      (runStage s (.connect env)).uiState.errors "step1" =
        some accessDeniedMessage) ∧
    (jsIncludes m "429" = true → jsIncludes m "Access denied" = false →
      jsIncludes m "403" = false → jsIncludes m "404" = false →
      jsIncludes m "401" = false →
      (runStage s (.connect env)).uiState.errors "step1" =
        some rateLimitMessage) := by
  obtain ⟨val, ff, md, comp, sty, now, ⟨ext, trans⟩⟩ := env
  unfold connectCollabThrown at ht
  dsimp only at ht
  have key : (runStage s (.connect ⟨val, ff, md, comp, sty, now,
      ⟨ext, trans⟩⟩)).uiState.errors "step1" =
      some (classifyConnectError (.mk m)) := by
    cases val with
    | thrown e =>
      obtain rfl : e = .mk m := by simpa using ht
      simp [runStage, stageEvents, connectToFigmaEvents, hne,
        connectCatchEvents, dispatchesOf, Event.dispatchedAction, applyActions]
    | ok v =>
      dsimp only at ht
      by_cases h1 : v.valid = false ∨ v.fileId.getD "" = ""
      · rw [if_pos h1] at ht
        exact absurd ht (by simp)
      · rw [if_neg h1] at ht
        cases ff with
        | thrown e =>
          obtain rfl : e = .mk m := by simpa using ht
          simp [runStage, stageEvents, connectToFigmaEvents, hne, h1,
            connectCatchEvents, dispatchesOf, Event.dispatchedAction,
            applyActions]
        | ok ffv =>
          cases md with
          | thrown e =>
            obtain rfl : e = .mk m := by simpa using ht
            simp [runStage, stageEvents, connectToFigmaEvents, hne, h1,
              connectCatchEvents, dispatchesOf, Event.dispatchedAction,
              applyActions]
          | ok mdv =>
            cases comp with
            | thrown e =>
              obtain rfl : e = .mk m := by simpa using ht
              simp [runStage, stageEvents, connectToFigmaEvents, hne, h1,
                connectCatchEvents, dispatchesOf, Event.dispatchedAction,
                applyActions]
            | ok compv =>
              cases sty with
              | thrown e =>
                obtain rfl : e = .mk m := by simpa using ht
                simp [runStage, stageEvents, connectToFigmaEvents, hne, h1,
                  connectCatchEvents, dispatchesOf, Event.dispatchedAction,
                  applyActions]
              | ok styv =>
                exact absurd ht (by simp)
  exact ⟨fun h403 => by rw [key, classify_connect_403 m h403],
    fun h429 hAD h403 h404 h401 => by
      rw [key, classify_connect_429 m h429 hAD h403 h404 h401]⟩

/-- C6 witness: a pure `429` rejection stores the rate-limit message. -/
theorem c6_amended_connect_error_classification_witness :
    ¬(jsTrim tokenState.stepData.figmaUrl = "" ∨
      jsTrim tokenState.stepData.accessToken = "") ∧
    connectCollabThrown rateLimitConnectEnv =
      some (.mk "HTTP 429: too many requests") ∧
    (runStage tokenState (.connect rateLimitConnectEnv)).uiState.errors
      "step1" = some rateLimitMessage := by
  have h1 : ¬(jsTrim tokenState.stepData.figmaUrl = "" ∨
      jsTrim tokenState.stepData.accessToken = "") := by decide
  have h2 : connectCollabThrown rateLimitConnectEnv =
      some (.mk "HTTP 429: too many requests") := by rfl
  exact ⟨h1, h2,
    (c6_amended_connect_error_classification tokenState rateLimitConnectEnv
      "HTTP 429: too many requests" h1 h2).2 (by decide) (by decide)
      (by decide) (by decide) (by decide)⟩

/-! ### Matcher decomposition lemmas -/

theorem lazyGroup_nil : lazyGroup [] = none := rfl

theorem lazyGroup_cons (c : Char) (cs : List Char) :
    lazyGroup (c :: cs) =
      match closeParen (c :: cs) with
      | some (consumed, rest) => some ([], consumed, rest)
      | none =>
        match lazyGroup cs with
        | some (g, consumed, rest) => some (c :: g, consumed, rest)
        | none => none := rfl

theorem jsReturnMatch_nil : jsReturnMatch [] = matchReturnAt [] := rfl

theorem jsReturnMatch_cons (c : Char) (rest : List Char) :
    jsReturnMatch (c :: rest) =
      match matchReturnAt (c :: rest) with
      | some m => some m
      | none => jsReturnMatch rest := rfl

theorem closeParen_split (l consumed rest : List Char)
    (h : closeParen l = some (consumed, rest)) : l = consumed ++ rest := by
  unfold closeParen at h
  split at h
  · rename_i c1 rest2 heq
    simp only [Option.some.injEq, Prod.mk.injEq] at h
    obtain ⟨rfl, rfl⟩ := h
    conv_lhs => rw [← List.takeWhile_append_dropWhile jsWs l]
    rw [heq]
    simp
  · exact absurd h (by simp)

theorem lazyGroup_split : ∀ (l g consumed rest : List Char),
    lazyGroup l = some (g, consumed, rest) → l = g ++ consumed ++ rest := by
  intro l
  induction l with
  | nil =>
    intro g consumed rest h
    rw [lazyGroup_nil] at h
    exact absurd h (by simp)
  | cons c cs ih =>
    intro g consumed rest h
    rw [lazyGroup_cons] at h
    cases hcp : closeParen (c :: cs) with
    | some cr =>
      obtain ⟨cons2, rest2⟩ := cr
      rw [hcp] at h
      simp only [Option.some.injEq, Prod.mk.injEq] at h
      obtain ⟨rfl, rfl, rfl⟩ := h
      simpa using closeParen_split _ _ _ hcp
    | none =>
      rw [hcp] at h
      cases hlg : lazyGroup cs with
      | none => rw [hlg] at h; exact absurd h (by simp)
      | some gcr =>
        obtain ⟨g2, c2, r2⟩ := gcr
        rw [hlg] at h
        simp only [Option.some.injEq, Prod.mk.injEq] at h
        obtain ⟨rfl, rfl, rfl⟩ := h
        simpa using ih g2 c2 r2 hlg

theorem matchReturnAt_split (l : List Char) (m : ReturnMatch)
    (h : matchReturnAt l = some m) : ∃ post, l = m.matched ++ post := by
  unfold matchReturnAt at h
  by_cases hp : prefixB "return".data l = true
  · rw [if_pos hp] at h
    obtain ⟨t, ht⟩ := (prefixB_iff _ l).mp hp
    have h6 : ("return".data : List Char).length = 6 := rfl
    have hdrop : l.drop 6 = t := by
      rw [ht, ← h6]
      exact List.drop_left _ _
    dsimp only at h
    split at h
    · rename_i afterParen heq
      cases hlg : lazyGroup (afterParen.dropWhile jsWs) with
      | none => rw [hlg] at h; exact absurd h (by simp)
      | some gcr =>
        obtain ⟨g, consumed, rest⟩ := gcr
        rw [hlg] at h
        simp only [Option.some.injEq] at h
        subst h
        rw [hdrop] at heq
        have hsplit := lazyGroup_split (afterParen.dropWhile jsWs) g consumed
          rest hlg
        have h2 : afterParen =
            afterParen.takeWhile jsWs ++ afterParen.dropWhile jsWs :=
          (List.takeWhile_append_dropWhile jsWs afterParen).symm
        rw [hsplit] at h2
        have h1 : t = t.takeWhile jsWs ++ t.dropWhile jsWs :=
          (List.takeWhile_append_dropWhile jsWs t).symm
        rw [heq] at h1
        refine ⟨rest, ?_⟩
        simp only [hdrop]
        conv_lhs => rw [ht, h1]
        conv_lhs => rw [h2]
        simp [List.append_assoc]
    · exact absurd h (by simp)
  · rw [if_neg hp] at h
    exact absurd h (by simp)

theorem jsReturnMatch_split : ∀ (l : List Char) (m : ReturnMatch),
    jsReturnMatch l = some m → ∃ pre post, l = pre ++ m.matched ++ post := by
  intro l
  induction l with
  | nil =>
    intro m h
    rw [jsReturnMatch_nil] at h
    obtain ⟨post, hp⟩ := matchReturnAt_split [] _ h
    exact ⟨[], post, by simpa using hp⟩
  | cons c rest ih =>
    intro m h
    rw [jsReturnMatch_cons] at h
    cases hma : matchReturnAt (c :: rest) with
    | some m2 =>
      rw [hma] at h
      simp only [Option.some.injEq] at h
      subst h
      obtain ⟨post, hp⟩ := matchReturnAt_split _ _ hma
      exact ⟨[], post, by simpa using hp⟩
    | none =>
      rw [hma] at h
      obtain ⟨pre, post, hp⟩ := ih m h
      exact ⟨c :: pre, post, by simp [hp]⟩

theorem no_dollar_append {a b : List Char} (ha : '$' ∉ a) (hb : '$' ∉ b) :
    '$' ∉ a ++ b := by
  simp [List.mem_append, ha, hb]

theorem string_data_append (a b : String) :
    (a ++ b).data = a.data ++ b.data := rfl

theorem infixB_append_left (pat pre s : List Char)
    (h : infixB pat s = true) : infixB pat (pre ++ s) = true := by
  rw [infixB_iff] at h ⊢
  obtain ⟨x, y, rfl⟩ := h
  exact ⟨pre ++ x, y, by simp [List.append_assoc]⟩

/-! ### C7 -/

/-- C7 counterexample: the source splices the user markup through JS
`String.prototype.replace`, whose replacement string interprets `$`
patterns; user markup `$$` (non-empty after trimming) collapses to a
single `$`, so the output does not contain the user markup. -/
theorem c7_counterexample_dollar_user_markup :
    jsReturnMatch ("return (<svg/>);" : String).data =
      some ⟨("return (<svg/>);" : String).data, ("<svg/>" : String).data⟩ ∧
    prefixB "<svg".data (trimChars ("<svg/>" : String).data) = true ∧
    jsTrim "$$" ≠ "" ∧
    jsIncludes (combineCodePieces "return (<svg/>);" "$$" JsValue.null "T")
      "$$" = false := by
  exact ⟨by rfl, by decide, by decide, by decide⟩

/-- C7 (amended): when the generated source matches the top-level
`return ( ... );` pattern with a root element starting `<svg`, and the
user markup is non-empty after trimming, the output contains the
original root and the user markup wrapped together in one
`React.Fragment`, original first — provided neither the trimmed root nor
the user markup contains a `$` (which `String.prototype.replace` would
reinterpret as a substitution pattern). -/
theorem c7_amended_svg_fragment_wrapped (g u : String) (fd : JsValue)
    (now : String) (m : ReturnMatch)
    (hm : jsReturnMatch g.data = some m)
    (hsvg : prefixB "<svg".data (trimChars m.group) = true)
    (hu : jsTrim u ≠ "")
    (hdg : '$' ∉ trimChars m.group)
    (hdu : '$' ∉ u.data) :
    infixB ("<React.Fragment>\n      ".data ++ trimChars m.group ++
        "\n      \x7b/* Additional JSX */\x7d\n      ".data ++ u.data ++
        "\n    </React.Fragment>".data)
      (combineCodePieces g u fd now).data = true := by
  obtain ⟨pre, post, hgd⟩ := jsReturnMatch_split g.data m hm
  have core : ∀ tmpl : List Char, '$' ∉ tmpl →
      (∀ x y : List Char, infixB
        ("<React.Fragment>\n      ".data ++ trimChars m.group ++
          "\n      \x7b/* Additional JSX */\x7d\n      ".data ++ u.data ++
          "\n    </React.Fragment>".data) (x ++ tmpl ++ y) = true) →
      infixB ("<React.Fragment>\n      ".data ++ trimChars m.group ++
        "\n      \x7b/* Additional JSX */\x7d\n      ".data ++ u.data ++
        "\n    </React.Fragment>".data)
        (replaceFirstSub g.data m.matched tmpl) = true := by
    intro tmpl hnd hocc
    cases hsfe : splitFirst m.matched g.data with
    | none =>
      exact absurd hsfe (hgd ▸ splitFirst_of_occurs m.matched pre post)
    | some ba =>
      obtain ⟨b, a⟩ := ba
      unfold replaceFirstSub
      rw [hsfe]
      dsimp only
      rw [getSubstitution_no_dollar m.matched b a tmpl hnd]
      exact hocc b a
  have hnd : '$' ∉ ("return (" : String).data ++
      (("\n    <React.Fragment>\n      " : String).data ++ trimChars m.group ++
        ("\n      \x7b/* Additional JSX */\x7d\n      " : String).data ++
        u.data ++ ("\n    </React.Fragment>" : String).data) ++
      ("\n  );" : String).data :=
    no_dollar_append (no_dollar_append (by decide)
      (no_dollar_append (no_dollar_append (no_dollar_append
        (no_dollar_append (by decide) hdg) (by decide)) hdu) (by decide)))
      (by decide)
  have hocc : ∀ x y : List Char, infixB
      ("<React.Fragment>\n      ".data ++ trimChars m.group ++
        "\n      \x7b/* Additional JSX */\x7d\n      ".data ++ u.data ++
        "\n    </React.Fragment>".data)
      (x ++ (("return (" : String).data ++
        (("\n    <React.Fragment>\n      " : String).data ++ trimChars m.group ++
          ("\n      \x7b/* Additional JSX */\x7d\n      " : String).data ++
          u.data ++ ("\n    </React.Fragment>" : String).data) ++
        ("\n  );" : String).data) ++ y) = true := by
    intro x y
    rw [infixB_iff]
    refine ⟨x ++ "return (".data ++ "\n    ".data, "\n  );".data ++ y, ?_⟩
    have hsplit4 : ("\n    <React.Fragment>\n      " : String).data =
        ("\n    " : String).data ++
          ("<React.Fragment>\n      " : String).data := by decide
    simp only [hsplit4, List.append_assoc, List.cons_append, List.nil_append]
  have hcore := core _ hnd hocc
  unfold combineCodePieces
  by_cases hft : fd.truthy = true <;>
    simp only [hft, hu, hm, hsvg, if_true, if_false, ne_eq,
      not_false_eq_true, ite_true, ite_false, string_data_append,
      Bool.false_eq_true]
  · exact infixB_append_left _ _ _ hcore
  · exact hcore

/-- C7 witness: a plain SVG return expression combined with plain user
markup produces the wrapped fragment. -/
theorem c7_amended_svg_fragment_wrapped_witness :
    jsReturnMatch ("return (<svg/>);" : String).data =
      some ⟨("return (<svg/>);" : String).data, ("<svg/>" : String).data⟩ ∧
    infixB ("<React.Fragment>\n      ".data ++
        trimChars (("<svg/>" : String).data) ++
        "\n      \x7b/* Additional JSX */\x7d\n      ".data ++
        ("<p>hi</p>" : String).data ++ "\n    </React.Fragment>".data)
      (combineCodePieces "return (<svg/>);" "<p>hi</p>" JsValue.null
        "T").data = true := by
  have h1 : jsReturnMatch ("return (<svg/>);" : String).data =
      some ⟨("return (<svg/>);" : String).data, ("<svg/>" : String).data⟩ := by
    rfl
  exact ⟨h1, c7_amended_svg_fragment_wrapped "return (<svg/>);" "<p>hi</p>"
    JsValue.null "T"
    ⟨("return (<svg/>);" : String).data, ("<svg/>" : String).data⟩
    h1 (by decide) (by decide) (by decide) (by decide)⟩

/-! ### C8 -/

/-- C8 counterexample: the additional style text may itself contain the
base-styles section header, in which case the output does contain
`/* Base Styles */` even with an empty base style, so the
non-containment half of the claim fails as stated. -/
theorem c8_counterexample_base_header_in_additional :
    jsTrim "" = "" ∧ jsTrim "/* Base Styles */ x" ≠ "" ∧
    jsIncludes (combineCssCode "" "/* Base Styles */ x" JsValue.null "T")
      "/* Base Styles */" = true := by
  exact ⟨by decide, by decide, by decide⟩

/-- C8 (amended): with an empty (after trimming) base style and a
non-empty additional style, the output is exactly the optional header
comment followed by the additional-styles section and the fixed
responsive-utilities section — the base-styles section is not emitted.
The literal `/* Base Styles */` is absent from the output whenever the
document metadata is null and the additional style text does not itself
contain that literal. -/
theorem c8_amended_empty_base_omits_base_section (base add : String)
    (fd : JsValue) (now : String)
    (hb : jsTrim base = "") (ha : jsTrim add ≠ "") :
    (combineCssCode base add fd now).data =
      (if fd.truthy = true then (cssHeaderComment fd now).data else []) ++
        ("/* Additional Styles */\n".data ++ add.data ++ "\n\n".data ++
          responsiveUtilities.data) ∧
    infixB ("/* Additional Styles */\n".data ++ add.data)
      (combineCssCode base add fd now).data = true ∧
    infixB responsiveUtilities.data
      (combineCssCode base add fd now).data = true ∧
    (fd = JsValue.null →
      infixB "/* Base Styles */".data add.data = false →
      infixB "/* Base Styles */".data
        (combineCssCode base add fd now).data = false) := by
  have h1 : (combineCssCode base add fd now).data =
      (if fd.truthy = true then (cssHeaderComment fd now).data else []) ++
        ("/* Additional Styles */\n".data ++ add.data ++ "\n\n".data ++
          responsiveUtilities.data) := by
    unfold combineCssCode
    by_cases hft : fd.truthy = true <;>
      simp [hft, hb, ha, string_data_append, List.append_assoc]
  refine ⟨h1, ?_, ?_, ?_⟩
  · rw [infixB_iff]
    refine ⟨if fd.truthy = true then (cssHeaderComment fd now).data else [],
      "\n\n".data ++ responsiveUtilities.data, ?_⟩
    rw [h1]
    simp [List.append_assoc]
  · rw [infixB_iff]
    refine ⟨(if fd.truthy = true then (cssHeaderComment fd now).data
        else []) ++ ("/* Additional Styles */\n".data ++ add.data ++
        "\n\n".data), [], ?_⟩
    rw [h1]
    simp [List.append_assoc]
  · intro hfd hadd
    subst hfd
    have h2 : (combineCssCode base add JsValue.null now).data =
        "/* Additional Styles */\n".data ++
          (add.data ++ ("\n\n".data ++ responsiveUtilities.data)) := by
      rw [h1]
      simp [JsValue.truthy, List.append_assoc]
    by_contra hcon
    rw [Bool.not_eq_false, infixB_iff, h2] at hcon
    rcases occurs_append_decomp hcon with hA | hrest | hspan
    · exact absurd ((infixB_iff _ _).mpr hA) (by decide)
    · rcases occurs_append_decomp hrest with hadd2 | hB | hspan2
      · exact absurd ((infixB_iff _ _).mpr hadd2) (by simp [hadd])
      · exact absurd ((infixB_iff _ _).mpr hB) (by decide)
      · obtain ⟨p1, p2, hp, hp1, hp2, hsuf, hpre⟩ := hspan2
        have hmem : '\n' ∈ p2 := mem_of_head_pre hp2 hpre (by decide)
        have : '\n' ∈ ("/* Base Styles */" : String).data := by
          rw [hp]
          exact List.mem_append_right _ hmem
        exact absurd this (by decide)
    · obtain ⟨p1, p2, hp, hp1, hp2, hsuf, hpre⟩ := hspan
      have hmem : '\n' ∈ p1 := mem_of_last_suf hp1 hsuf (by decide)
      have : '\n' ∈ ("/* Base Styles */" : String).data := by
        rw [hp]
        exact List.mem_append_left _ hmem
      exact absurd this (by decide)

/-- C8 witness: ordinary additional CSS with null metadata yields the
additional section without the base-styles header. -/
theorem c8_amended_empty_base_omits_base_section_witness :
    jsTrim "" = "" ∧ jsTrim "body \x7b color: red \x7d" ≠ "" ∧
    infixB ("/* Additional Styles */\n".data ++
        ("body \x7b color: red \x7d" : String).data)
      (combineCssCode "" "body \x7b color: red \x7d" JsValue.null "T").data =
      true ∧
    infixB "/* Base Styles */".data
      (combineCssCode "" "body \x7b color: red \x7d" JsValue.null "T").data =
      false := by
  have hb : jsTrim "" = "" := by decide
  have ha : jsTrim "body \x7b color: red \x7d" ≠ "" := by decide
  have h := c8_amended_empty_base_omits_base_section ""
    "body \x7b color: red \x7d" JsValue.null "T" hb ha
  exact ⟨hb, ha, h.2.1, h.2.2.2 rfl (by decide)⟩

end FigmaSteps
